import Mathlib

/-
Verification of pietervogelaar/couchbase_upgrade (couchbase_upgrade.py).

The script performs a rolling upgrade of a Couchbase cluster.  Its core is
the class `CouchbaseUpgrader`: per-node upgrade logic (`upgrade_node`), the
orchestrating loop (`upgrade`), and a collection of probe/mutator helpers
built on `ssh_command`.

Shallow embedding conventions:
  * Remote command executions are modelled by an environment that supplies,
    for each command the code issues, the `SshResult` (stdout, stderr,
    exit code) the remote side returns.
  * Python exceptions (IndexError from `self._nodes[0]`, ValueError from
    `StrictVersion`, a `json.loads` failure) are modelled with `Except PyErr`.
  * `json.loads` itself (a library call, not repository code) is abstracted
    by a decoder parameter `J : String -> Option JsonObj`; `none` models a
    raise, `some obj` a decoded object whose relevant fields are strings.
  * Every command issued is recorded in an event trace, so that claims about
    which commands are (not) invoked can be stated.
  * The two indefinite polling loops (`wait_until_node_healthy`,
    `wait_until_rebalanced`) only ever return `True` in the source (they
    loop until the polled status is the desired one); runs in which they
    return are modelled by the corresponding event plus result `true`.
-/

/- ---------------------------------------------------------------- -/
/- String helpers mirroring the Python primitives used by the code. -/
/- ---------------------------------------------------------------- -/

/-- Whether `needle` starts the list `hay` (chars compared exactly). -/
def listStartsWith : List Char → List Char → Bool
  | [], _ => true
  | _ :: _, [] => false
  | a :: as, b :: bs => a = b && listStartsWith as bs

/-- Python `needle in hay` on character lists. -/
def charsContain (hay needle : List Char) : Bool :=
  match hay with
  | [] => needle.isEmpty
  | _ :: rest => listStartsWith needle hay || charsContain rest needle

/-- Python `needle in hay` (substring containment). -/
def strContains (hay needle : String) : Bool :=
  charsContain hay.data needle.data

/-- Python `str.split(sep)` for a one-character separator. -/
def splitOnChar (sep : Char) : List Char → List (List Char)
  | [] => [[]]
  | c :: cs =>
    let r := splitOnChar sep cs
    if c = sep then [] :: r
    else
      match r with
      | [] => [[c]]
      | g :: gs => (c :: g) :: gs

/-- Python `s.split(sep)` for a one-character separator, on strings. -/
def pySplit (s : String) (sep : Char) : List String :=
  (splitOnChar sep s.data).map String.mk

/-- Whitespace characters stripped by Python `str.strip()`. -/
def isSpaceChar (c : Char) : Bool :=
  c = ' ' || c = '\t' || c = '\n' || c = '\r' || c = '\x0b' || c = '\x0c'

/-- Python `str.strip()`. -/
def pyStrip (s : String) : String :=
  String.mk (((s.data.dropWhile isSpaceChar).reverse.dropWhile isSpaceChar).reverse)

/-- Try to drop `pat` from the front of `s`, comparing case-insensitively
    (Python `re.IGNORECASE` on a literal pattern). -/
def dropMatchCI : List Char → List Char → Option (List Char)
  | [], s => some s
  | _ :: _, [] => none
  | p :: ps, c :: cs => if p.toLower = c.toLower then dropMatchCI ps cs else none

/-- One fuel-indexed pass of `re.sub(pat, '', s, flags=IGNORECASE)` for a
    literal nonempty pattern `p :: ps`: scan left to right, removing each
    (non-overlapping) case-insensitive occurrence.  `fuel ≥ s.length`
    guarantees the scan finishes. -/
def removeCIFuel (p : Char) (ps : List Char) : Nat → List Char → List Char
  | 0, s => s
  | _ + 1, [] => []
  | fuel + 1, c :: cs =>
    if p.toLower = c.toLower then
      match dropMatchCI ps cs with
      | some rest => removeCIFuel p ps fuel rest
      | none => c :: removeCIFuel p ps fuel cs
    else c :: removeCIFuel p ps fuel cs

/-- Python `re.sub(pat, '', s, flags=re.IGNORECASE)` for a literal pattern. -/
def removeAllCI (pat s : String) : String :=
  match pat.data with
  | [] => s
  | p :: ps => String.mk (removeCIFuel p ps s.data.length s.data)

/- ----------------------------------------------------- -/
/- distutils.version.StrictVersion, as used by the code. -/
/- ----------------------------------------------------- -/

/-- Model of `distutils.version.StrictVersion`: a `major.minor[.patch]` triple with an
    optional `[ab]N` prerelease tag. -/
structure StrictVersion where
  version : Nat × Nat × Nat
  prerelease : Option (Char × Nat)
deriving Repr, DecidableEq

/-- Leading decimal digits of a character list, and the remainder. -/
def takeDigits : List Char → List Char × List Char
  | [] => ([], [])
  | c :: cs =>
    if c.isDigit then
      let (d, r) := takeDigits cs
      (c :: d, r)
    else ([], c :: cs)

/-- Numeric value of a digit list. -/
def natOfDigits (ds : List Char) : Nat :=
  ds.foldl (fun n c => n * 10 + (c.toNat - '0'.toNat)) 0

/-- Parse the optional `([ab](\d+))?$` tail of the StrictVersion regex:
    `some none` = no prerelease, `some (some _)` = prerelease, `none` = the
    whole version string is rejected. -/
def parsePre : List Char → Option (Option (Char × Nat))
  | [] => some none
  | c :: cs =>
    if c = 'a' || c = 'b' then
      match takeDigits cs with
      | ([], _) => none
      | (d, []) => some (some (c, natOfDigits d))
      | (_, _ :: _) => none
    else none

/-- Parse as `StrictVersion(s)`: `none` models the `ValueError` raised on a string not
    matching `^(\d+)\.(\d+)(\.(\d+))?([ab](\d+))?$`; a missing patch part
    counts as `0`. -/
def parseStrictVersion (s : String) : Option StrictVersion :=
  match takeDigits s.data with
  | ([], _) => none
  | (d1, rest1) =>
    match rest1 with
    | '.' :: rest2 =>
      match takeDigits rest2 with
      | ([], _) => none
      | (d2, rest3) =>
        match rest3 with
        | '.' :: rest4 =>
          match takeDigits rest4 with
          | ([], _) => none
          | (d3, rest5) =>
            (parsePre rest5).map fun pre =>
              ⟨(natOfDigits d1, natOfDigits d2, natOfDigits d3), pre⟩
        | _ =>
          (parsePre rest3).map fun pre =>
            ⟨(natOfDigits d1, natOfDigits d2, 0), pre⟩
    | _ => none

def cmpN (a b : Nat) : Ordering :=
  if a < b then .lt else if a = b then .eq else .gt

def cmpTriple (a b : Nat × Nat × Nat) : Ordering :=
  match cmpN a.1 b.1 with
  | .eq =>
    match cmpN a.2.1 b.2.1 with
    | .eq => cmpN a.2.2 b.2.2
    | o => o
  | o => o

/-- Model of `StrictVersion._cmp`: compare the numeric triples; on a tie a prerelease
    version sorts below the plain one, and two prereleases compare by their
    (letter, number) pair. -/
def svCmp (x y : StrictVersion) : Ordering :=
  match cmpTriple x.version y.version with
  | .eq =>
    match x.prerelease, y.prerelease with
    | none, none => .eq
    | none, some _ => .gt
    | some _, none => .lt
    | some (c1, n1), some (c2, n2) =>
      match cmpN c1.toNat c2.toNat with
      | .eq => cmpN n1 n2
      | o => o
  | o => o

/-- The value `StrictVersion('0.0.0')`. -/
def svZero : StrictVersion := ⟨(0, 0, 0), none⟩

/- ------------------------------- -/
/- Core data types of the program. -/
/- ------------------------------- -/

/-- The dict returned by `ssh_command`: captured stdout/stderr and the
    process return code. -/
structure SshResult where
  stdout : String
  stderr : String
  exitCode : Int
deriving Repr, DecidableEq

/-- Abstraction of a decoded JSON object: the string-valued fields the code
    reads (`version`, `status`). -/
def JsonObj := List (String × String)

/-- Python `key in data` / `data[key]` on the abstracted JSON object. -/
def lookupField (obj : JsonObj) (k : String) : Option String :=
  (obj.find? (fun p => p.1 == k)).map (·.2)

/-- Python exceptions the modelled code can raise. -/
inductive PyErr
  | indexError
  | valueError (s : String)
  | jsonError
deriving Repr, DecidableEq

/-- One remote command issued during a run, tagged with the target node
    (the argument `upgrade_node`/`upgrade` passes to the helper). -/
inductive Event
  | versionQuery (node : String)
  | stopService (node : String)
  | upgradeCouchbase (node : String)
  | upgradeSystem (node : String)
  | startService (node : String)
  | rebootNode (node : String)
  | awaitHealthy (node : String)
  | setRecoveryType (node : String) (rtype : String)
  | rebalanceStart (node : String)
  | awaitRebalanced (node : String)
  | checkAllHealthy (node : String)
  | latestVersionQuery (node : String)
  | preflightHealthCheck (node : String)
  | preflightRebalanceCheck (node : String)
deriving Repr, DecidableEq

/-- State-changing commands (service stop/start, package/OS upgrade, reboot,
    recovery-type change, rebalance trigger), as opposed to read-only probes. -/
def Event.isMutating : Event → Bool
  | .stopService _ | .upgradeCouchbase _ | .upgradeSystem _ | .startService _
  | .rebootNode _ | .setRecoveryType _ _ | .rebalanceStart _ => true
  | _ => false

/-- The run configuration fixed in `CouchbaseUpgrader.__init__` (the fields
    the core logic branches on; the command strings themselves are carried
    by the environment's `SshResult`s). -/
structure Config where
  port : Nat
  upgrade_system : Bool
  reboot : Bool
  force_reboot : Bool
deriving Repr, DecidableEq

/-- The mutable instance attributes set in `__init__` (lines 98-101) and
    updated during `upgrade_node`. -/
structure UpgraderState where
  rebooting : Bool
  couchbase_upgrades_available : Bool
  os_upgrades_available : Bool
deriving Repr, DecidableEq

/-- The attribute values right after `__init__` (lines 99-101). -/
def initState : UpgraderState := ⟨false, false, false⟩

/-- Results of the remote commands one `upgrade_node` call can issue on its
    node.  `recovery` is listed for completeness: the source discards the
    return value of `set_recovery_type` (line 512), so nothing reads it. -/
structure NodeEnv where
  serverInfo : SshResult
  serviceStop : SshResult
  upgradeCmd : SshResult
  upgradeSystemCmd : SshResult
  serviceStart : SshResult
  recovery : SshResult
  rebalanceCmd : SshResult
  serverList : SshResult

/-- Results of the run-level commands of `upgrade`, plus the per-node
    environments. -/
structure RunEnv where
  latest : SshResult
  preflightServerList : SshResult
  preflightRebalance : SshResult
  nodeEnv : String → NodeEnv

/- ------------------------------------------------------ -/
/- Probe and mutator helpers of class CouchbaseUpgrader.  -/
/- ------------------------------------------------------ -/

/-- Lines 430-434 of `ssh_command`: the caller-supplied `hide_errors`
    regexes are substituted out of stderr (after the fixed connection-closed
    clutter removal of lines 427-428, applied before this function's input),
    the remainder stripped; a nonempty remainder is written to stderr as an
    SSH error, a blank one prints nothing.  `hideTimedOut` says whether the
    caller passed the `Operation timed out` regex (only `get_node_status`
    does, line 348-349). -/
def ssh_stderr_printed (hideTimedOut : Bool) (stderr : String) : Option String :=
  let s := if hideTimedOut then removeAllCI "Operation timed out" stderr else stderr
  let s := pyStrip s
  if s = "" then none else some s

/-- Method `stop_service` (lines 148-159): success iff exit code 0. -/
def stop_service (r : SshResult) : Bool := r.exitCode == 0

/-- Method `start_service` (lines 210-221): success iff exit code 0. -/
def start_service (r : SshResult) : Bool := r.exitCode == 0

/-- Method `set_recovery_type` (lines 250-265): success iff exit code 0.  The sole
    caller (line 512) discards this value. -/
def set_recovery_type (r : SshResult) : Bool := r.exitCode == 0

/-- Method `rebalance` (lines 267-280): success iff exit code 0. -/
def rebalance (r : SshResult) : Bool := r.exitCode == 0

/-- Method `upgrade_couchbase` (lines 161-184): non-zero exit is failure; on
    success `_couchbase_upgrades_available` is set to whether the output
    lacks the `Nothing to do` no-op marker. -/
def upgrade_couchbase (r : SshResult) (s : UpgraderState) : Bool × UpgraderState :=
  if r.exitCode != 0 then (false, s)
  else (true, { s with couchbase_upgrades_available := !(strContains r.stdout "Nothing to do") })

/-- Method `upgrade_system` (lines 186-208): non-zero exit is failure; on success
    `_os_upgrades_available` is set to whether the output lacks the
    `No packages marked for update` no-op marker. -/
def upgrade_system (r : SshResult) (s : UpgraderState) : Bool × UpgraderState :=
  if r.exitCode != 0 then (false, s)
  else (true, { s with os_upgrades_available := !(strContains r.stdout "No packages marked for update") })

/-- Method `current_version_lower` (lines 109-146).  Exit code ≠ 0 or a missing
    `version` field yield `False` (with a message); otherwise the field's
    part before the first `-` is compared with the target via
    `StrictVersion` (equal or higher: `False`; lower: `True`).  A stdout
    `json.loads` cannot decode, or a version string `StrictVersion`
    rejects, raises. -/
def current_version_lower (J : String → Option JsonObj) (r : SshResult)
    (version : String) : Except PyErr Bool :=
  if r.exitCode == 0 then
    match J r.stdout with
    | none => .error .jsonError
    | some data =>
      match lookupField data "version" with
      | some vfield =>
        let current_version := (pySplit vfield '-').headD ""
        match parseStrictVersion current_version with
        | none => .error (.valueError current_version)
        | some cv =>
          match parseStrictVersion version with
          | none => .error (.valueError version)
          | some tv =>
            if svCmp cv tv = .eq then .ok false
            else if svCmp cv tv = .gt then .ok false
            else .ok true
      | none => .ok false
  else .ok false

/-- Method `get_node_status` (lines 336-358): `none` models the Python `False`.
    Non-zero exit yields `False`; a decodable stdout yields its `status`
    field, or `False` when absent; an undecodable stdout raises. -/
def get_node_status (J : String → Option JsonObj) (r : SshResult) :
    Except PyErr (Option String) :=
  if r.exitCode != 0 then .ok none
  else
    match J r.stdout with
    | none => .error .jsonError
    | some data => .ok (lookupField data "status")

/-- Method `get_rebalance_status` (lines 360-377): like `get_node_status` but
    without the hide-errors regex. -/
def get_rebalance_status (J : String → Option JsonObj) (r : SshResult) :
    Except PyErr (Option String) :=
  if r.exitCode == 0 then
    match J r.stdout with
    | none => .error .jsonError
    | some data =>
      match lookupField data "status" with
      | some st => .ok (some st)
      | none => .ok none
  else .ok none

/-- Method `get_latest_version` (lines 379-394): `none` models the Python `False`.
    Non-zero exit yields `False`; otherwise the stripped stdout is accepted
    iff `StrictVersion` parses it strictly above `0.0.0`; an unparseable
    string (the empty string included) raises `ValueError`. -/
def get_latest_version (r : SshResult) : Except PyErr (Option String) :=
  if r.exitCode != 0 then .ok none
  else
    let latest_version := pyStrip r.stdout
    match parseStrictVersion latest_version with
    | none => .error (.valueError latest_version)
    | some v =>
      if svCmp v svZero = .gt then .ok (some latest_version)
      else .ok none

/-- The scanning loop of `all_nodes_healthy` (lines 329-332) over the
    stdout lines: the result flips to `False` at the first line that
    contains the port but not `healthy`. -/
def server_list_scan (portStr : String) : List String → Bool
  | [] => true
  | line :: rest =>
    if strContains line portStr && !(strContains line "healthy") then false
    else server_list_scan portStr rest

/-- Method `all_nodes_healthy` (lines 310-334): non-zero exit is `False`;
    otherwise scan the stdout lines. -/
def all_nodes_healthy (port : Nat) (r : SshResult) : Bool :=
  if r.exitCode != 0 then false
  else server_list_scan (toString port) (pySplit r.stdout '\n')

/- --------------------------------------- -/
/- upgrade_node (lines 447-526), in phases -/
/- --------------------------------------- -/

/-- The version-gating block of `upgrade_node` (lines 457-474), entered with
    `_rebooting` already reset to `False`.  Outcome `some b` models an early
    `return b`; `none` means control falls through to line 476. -/
def node_version_gate (J : String → Option JsonObj) (cfg : Config) (env : NodeEnv)
    (node version : String) (s : UpgraderState) :
    Except PyErr (Option Bool × UpgraderState × List Event) :=
  if version = "" then .ok (none, s, [])
  else
    match current_version_lower J env.serverInfo version with
    | .error e => .error e
    | .ok true => .ok (none, s, [Event.versionQuery node])
    | .ok false =>
      if cfg.upgrade_system then
        match upgrade_system env.upgradeSystemCmd s with
        | (false, s') => .ok (some false, s', [Event.versionQuery node, Event.upgradeSystem node])
        | (true, s') =>
          if cfg.force_reboot || (cfg.reboot && s'.os_upgrades_available) then
            .ok (none, { s' with rebooting := true },
                 [Event.versionQuery node, Event.upgradeSystem node, Event.rebootNode node])
          else .ok (some true, s', [Event.versionQuery node, Event.upgradeSystem node])
      else
        if cfg.force_reboot || (cfg.reboot && s.os_upgrades_available) then
          .ok (none, { s with rebooting := true },
               [Event.versionQuery node, Event.rebootNode node])
        else .ok (some true, s, [Event.versionQuery node])

/-- The stop/upgrade/reboot/start block of `upgrade_node` (lines 476-507),
    skipped entirely when `_rebooting` is set. -/
def node_service_phase (cfg : Config) (env : NodeEnv) (node : String)
    (s : UpgraderState) : Bool × UpgraderState × List Event :=
  if s.rebooting then (true, s, [])
  else
    if !(stop_service env.serviceStop) then (false, s, [Event.stopService node])
    else
      match upgrade_couchbase env.upgradeCmd s with
      | (false, s1) => (false, s1, [Event.stopService node, Event.upgradeCouchbase node])
      | (true, s1) =>
        if cfg.upgrade_system then
          match upgrade_system env.upgradeSystemCmd s1 with
          | (false, s2) =>
            (false, s2, [Event.stopService node, Event.upgradeCouchbase node,
                         Event.upgradeSystem node])
          | (true, s2) =>
            if cfg.force_reboot ||
               (cfg.reboot && (s2.couchbase_upgrades_available || s2.os_upgrades_available)) then
              (true, { s2 with rebooting := true },
               [Event.stopService node, Event.upgradeCouchbase node,
                Event.upgradeSystem node, Event.rebootNode node])
            else
              if !(start_service env.serviceStart) then
                (false, s2, [Event.stopService node, Event.upgradeCouchbase node,
                             Event.upgradeSystem node, Event.startService node])
              else
                (true, s2, [Event.stopService node, Event.upgradeCouchbase node,
                            Event.upgradeSystem node, Event.startService node])
        else
          if cfg.force_reboot ||
             (cfg.reboot && (s1.couchbase_upgrades_available || s1.os_upgrades_available)) then
            (true, { s1 with rebooting := true },
             [Event.stopService node, Event.upgradeCouchbase node, Event.rebootNode node])
          else
            if !(start_service env.serviceStart) then
              (false, s1, [Event.stopService node, Event.upgradeCouchbase node,
                           Event.startService node])
            else
              (true, s1, [Event.stopService node, Event.upgradeCouchbase node,
                          Event.startService node])

/-- The tail of `upgrade_node` (lines 509-526): await health, set recovery
    type (result discarded, line 512), trigger rebalance, await rebalance,
    final cluster health verification.  Touches no instance attribute. -/
def node_tail (cfg : Config) (env : NodeEnv) (node : String) : Bool × List Event :=
  let tr := [Event.awaitHealthy node, Event.setRecoveryType node "delta",
             Event.rebalanceStart node]
  if !(rebalance env.rebalanceCmd) then (false, tr)
  else
    let tr := tr ++ [Event.awaitRebalanced node, Event.checkAllHealthy node]
    if !(all_nodes_healthy cfg.port env.serverList) then (false, tr)
    else (true, tr)

/-- Method `upgrade_node` (lines 447-526): reset `_rebooting`, run the version
    gate, the service block, then the tail; result, final instance state
    and the trace of commands issued. -/
def upgrade_node (J : String → Option JsonObj) (cfg : Config) (env : NodeEnv)
    (node version : String) (s0 : UpgraderState) :
    Except PyErr (Bool × UpgraderState × List Event) :=
  match node_version_gate J cfg env node version { s0 with rebooting := false } with
  | .error e => .error e
  | .ok (some b, s', tr) => .ok (b, s', tr)
  | .ok (none, s', tr) =>
    match node_service_phase cfg env node s' with
    | (false, s'', tr2) => .ok (false, s'', tr ++ tr2)
    | (true, s'', tr2) =>
      let (res, tr3) := node_tail cfg env node
      .ok (res, s'', tr ++ tr2 ++ tr3)

/- ------------------------------ -/
/- upgrade (lines 528-568)        -/
/- ------------------------------ -/

/-- The per-node loop of `upgrade` (lines 561-564): first failing node stops
    the run with result `False`; an exception propagates. -/
def upgradeNodes (J : String → Option JsonObj) (cfg : Config)
    (ne : String → NodeEnv) (version : String) :
    List String → UpgraderState → Except PyErr (Bool × UpgraderState × List Event)
  | [], s => .ok (true, s, [])
  | n :: rest, s =>
    match upgrade_node J cfg (ne n) n version s with
    | .error e => .error e
    | .ok (false, s', tr) => .ok (false, s', tr)
    | .ok (true, s', tr) =>
      match upgradeNodes J cfg ne version rest s' with
      | .error e => .error e
      | .ok (b, s'', tr') => .ok (b, s'', tr ++ tr')

/-- The instance states the loop of `upgrade` observes at the start of each
    node's attempt (the run stops after a failed or raising attempt). -/
def attemptStartStates (J : String → Option JsonObj) (cfg : Config)
    (ne : String → NodeEnv) (version : String) :
    List String → UpgraderState → List UpgraderState
  | [], _ => []
  | n :: rest, s =>
    s :: (match upgrade_node J cfg (ne n) n version s with
          | .ok (true, s', _) => attemptStartStates J cfg ne version rest s'
          | _ => [])

/-- Lines 549-564 of `upgrade`: the two pre-flight checks against the first
    node, then the per-node loop. -/
def upgrade_preflight (J : String → Option JsonObj) (cfg : Config)
    (nodes : List String) (version : String) (env : RunEnv) (s0 : UpgraderState)
    (tr0 : List Event) : Except PyErr (Bool × List Event) :=
  match nodes.head? with
  | none => .error .indexError
  | some n0 =>
    let tr := tr0 ++ [Event.preflightHealthCheck n0]
    if !(all_nodes_healthy cfg.port env.preflightServerList) then .ok (false, tr)
    else
      match get_rebalance_status J env.preflightRebalance with
      | .error e => .error e
      | .ok st =>
        let tr := tr ++ [Event.preflightRebalanceCheck n0]
        if st = some "notRunning" then
          match upgradeNodes J cfg env.nodeEnv version nodes s0 with
          | .error e => .error e
          | .ok (b, _, tr') => .ok (b, tr ++ tr')
        else .ok (false, tr)

/-- Method `upgrade` (lines 528-568): resolve the `latest` sentinel against the
    first node (a falsy resolution ends the run), then pre-flight checks
    and the per-node loop. -/
def upgrade (J : String → Option JsonObj) (cfg : Config) (nodes : List String)
    (version : String) (env : RunEnv) (s0 : UpgraderState) :
    Except PyErr (Bool × List Event) :=
  if version = "latest" then
    match nodes.head? with
    | none => .error .indexError
    | some n0 =>
      match get_latest_version env.latest with
      | .error e => .error e
      | .ok none => .ok (false, [Event.latestVersionQuery n0])
      | .ok (some v) =>
        upgrade_preflight J cfg nodes v env s0 [Event.latestVersionQuery n0]
  else upgrade_preflight J cfg nodes version env s0 []

/-- Drop the instance state from an `upgrade_node` outcome, leaving what the
    caller and the operator observe: exception or result plus issued
    commands. -/
def observable : Except PyErr (Bool × UpgraderState × List Event) →
    Except PyErr (Bool × List Event)
  | .error e => .error e
  | .ok (b, _, tr) => .ok (b, tr)

/-- Events strictly after the first occurrence of `e` in `tr`. -/
def afterEvent (e : Event) : List Event → List Event
  | [] => []
  | x :: xs => if x = e then xs else afterEvent e xs

/-- Trace of commands issued by an `upgrade_node` outcome (empty when it
    raised). -/
def traceOf : Except PyErr (Bool × UpgraderState × List Event) → List Event
  | .ok (_, _, tr) => tr
  | .error _ => []

/- ------------------------------------------------------------------ -/
/- Concrete fixtures: decoders and environments for closed instances. -/
/- ------------------------------------------------------------------ -/

/-- A concrete `json.loads` decoder for server-info output: the whole stdout
    stands for the `version` field. -/
def Jver : String → Option JsonObj := fun s => some [("version", s)]

/-- A concrete `json.loads` decoder for status output: empty stdout is
    undecodable (as for the real `json.loads('')`), anything else decodes to
    an object whose `status` field is the text itself. -/
def Jstatus : String → Option JsonObj :=
  fun s => if s = "" then none else some [("status", s)]

/-- A remote command that succeeded with the given stdout. -/
def sshOk (out : String) : SshResult := ⟨out, "", 0⟩

/-- A remote command that failed (exit code 1). -/
def sshFail : SshResult := ⟨"", "", 1⟩

/-- Node answers: Couchbase at 1.0.0, every command succeeds, the package
    upgrade reports an actual change, the cluster ends healthy. -/
def envChanged : NodeEnv :=
  { serverInfo := sshOk "1.0.0"
    serviceStop := sshOk ""
    upgradeCmd := sshOk "upgraded couchbase-server"
    upgradeSystemCmd := sshOk "No packages marked for update"
    serviceStart := sshOk ""
    recovery := sshOk ""
    rebalanceCmd := sshOk ""
    serverList := sshOk "host1:8091 healthy active" }

/-- Like `envChanged`, but the package upgrade prints the `Nothing to do`
    no-op marker. -/
def envNothing : NodeEnv := { envChanged with upgradeCmd := sshOk "Nothing to do" }

/-- Like `envChanged`, but the service-stop command fails. -/
def envStopFail : NodeEnv := { envChanged with serviceStop := sshFail }

/-- Like `envChanged`, but the current-version query fails (exit code 1). -/
def envVqFail : NodeEnv := { envChanged with serverInfo := sshFail }

/-- Like `envChanged`, but the node is already at version 2.0.0 (the target
    used by the fixtures). -/
def envCurrent : NodeEnv := { envChanged with serverInfo := sshOk "2.0.0" }

/-- Like `envChanged`, but the set-recovery-type command fails. -/
def envRecFail : NodeEnv := { envChanged with recovery := sshFail }

/-- No reboot policy, no forced reboot, no OS upgrading. -/
def cfgPlain : Config := ⟨8091, false, false, false⟩

/-- Reboot-on-upgrade policy. -/
def cfgReboot : Config := ⟨8091, false, true, false⟩

/-- Forced reboot. -/
def cfgForce : Config := ⟨8091, false, false, true⟩

/-- A run environment in which every node behaves like `envChanged` and the
    pre-flight checks pass. -/
def runEnvOk : RunEnv :=
  { latest := sshOk "2.0.0"
    preflightServerList := sshOk "host1:8091 healthy active"
    preflightRebalance := sshOk "notRunning"
    nodeEnv := fun _ => envChanged }

/-- A concrete `json.loads` decoder for rebalance-status output: stdout is
    the `status` field. -/
def Jreb : String → Option JsonObj := fun s => some [("status", s)]

/-- Like `runEnvOk`, but the pre-flight health check sees an unhealthy
    member on the configured port. -/
def runEnvUnhealthy : RunEnv :=
  { runEnvOk with preflightServerList := sshOk "host1:8091 healthy\nhost2:8091 warmup" }

/-- Like `runEnvOk`, but the first node's service-stop command fails, so the
    first attempted node fails. -/
def runEnvStop1 : RunEnv :=
  { runEnvOk with nodeEnv := fun n => if n = "n1" then envStopFail else envChanged }

/-- A concrete `json.loads` decoder serving whole runs: rebalance-status
    output decodes to a `status` field, everything else to a `version`
    field. -/
def Jrun : String → Option JsonObj :=
  fun s => if s = "notRunning" then some [("status", s)] else some [("version", s)]

/-- Every node answers like `envNothing` (package upgrade is a no-op). -/
def neNothing : String → NodeEnv := fun _ => envNothing

/-- Every node answers like `envChanged` (package upgrade changed files). -/
def neChanged : String → NodeEnv := fun _ => envChanged

/-- Like `envCurrent` (node already at the target), but the OS-upgrade
    command fails. -/
def envOsFailCur : NodeEnv := { envCurrent with upgradeSystemCmd := sshFail }

/-- OS upgrading enabled, no reboot policy, no forced reboot. -/
def cfgSys : Config := ⟨8091, true, false, false⟩

/- -------------------- -/
/- Helper lemmas        -/
/- -------------------- -/

theorem server_list_scan_false_iff (p : String) (lines : List String) :
    server_list_scan p lines = false ↔
      ∃ l ∈ lines, strContains l p = true ∧ strContains l "healthy" = false := by
  induction lines with
  | nil => simp [server_list_scan]
  | cons l rest ih =>
    by_cases h : (strContains l p && !(strContains l "healthy")) = true
    · have h' := h
      rw [Bool.and_eq_true, Bool.not_eq_true'] at h'
      simp only [server_list_scan, if_pos h]
      constructor
      · intro _
        exact ⟨l, List.mem_cons_self _ _, h'.1, h'.2⟩
      · intro _
        trivial
    · simp only [server_list_scan, if_neg h, ih]
      rw [Bool.and_eq_true, Bool.not_eq_true'] at h
      push_neg at h
      constructor
      · rintro ⟨x, hx, hxp, hxh⟩
        exact ⟨x, List.mem_cons_of_mem _ hx, hxp, hxh⟩
      · rintro ⟨x, hx, hxp, hxh⟩
        rcases List.mem_cons.mp hx with rfl | hx'
        · exact absurd (h hxp) (by simp [hxh])
        · exact ⟨x, hx', hxp, hxh⟩

/- -------------------- -/
/- Claims               -/
/- -------------------- -/

/-- C7 (confirmed): `all_nodes_healthy` is false exactly when some stdout
    line contains the configured port but lacks the substring `healthy`;
    with no port-matching line it is vacuously true; a non-zero exit status
    of the server-list command yields false. -/
theorem C7_all_nodes_healthy (port : Nat) (lines : List String) (r : SshResult) :
    (server_list_scan (toString port) lines = false ↔
      ∃ l ∈ lines, strContains l (toString port) = true ∧ strContains l "healthy" = false)
    ∧ ((∀ l ∈ lines, strContains l (toString port) = false) →
        server_list_scan (toString port) lines = true)
    ∧ (r.exitCode ≠ 0 → all_nodes_healthy port r = false)
    ∧ (r.exitCode = 0 →
        (all_nodes_healthy port r = false ↔
          ∃ l ∈ pySplit r.stdout '\n',
            strContains l (toString port) = true ∧ strContains l "healthy" = false)) := by
  refine ⟨server_list_scan_false_iff _ _, ?_, ?_, ?_⟩
  · intro hnone
    rcases h : server_list_scan (toString port) lines with _ | _
    · exact absurd ((server_list_scan_false_iff _ _).mp h)
        (by rintro ⟨x, hx, hxp, _⟩; exact absurd (hnone x hx) (by simp [hxp]))
    · rfl
  · intro hexit
    unfold all_nodes_healthy
    rw [if_pos (by simpa using hexit)]
  · intro hexit
    unfold all_nodes_healthy
    rw [if_neg (by simp [hexit])]
    exact server_list_scan_false_iff _ _

/-- C7 witness: a failed server-list command yields an unhealthy verdict. -/
theorem C7_all_nodes_healthy_witness : all_nodes_healthy 8091 sshFail = false :=
  (C7_all_nodes_healthy 8091 [] sshFail).2.2.1 (by decide)

/-- C8 counterexample: the claim says a latest-version query returning empty
    text is treated as a resolution failure (a failure result, not a crash);
    but on a command that succeeds with empty stdout, `get_latest_version`
    raises `ValueError` (from `StrictVersion('')`) instead of returning the
    falsy failure result. -/
theorem C8_counterexample :
    get_latest_version ⟨"", "", 0⟩ = .error (.valueError "") := rfl

/-- C8 (amended): `get_latest_version` accepts the stripped stdout exactly
    when `StrictVersion` parses it strictly above 0.0.0; the text `0.0.0`
    yields the falsy failure result; but text `StrictVersion` cannot parse —
    the empty string included — raises `ValueError` rather than returning a
    failure result.  When the version was requested as `latest`, a falsy
    resolution aborts the run before any node is touched. -/
theorem C8_amended :
    (∀ r : SshResult, r.exitCode = 0 → pyStrip r.stdout = "0.0.0" →
      get_latest_version r = .ok none)
    ∧ (∀ r : SshResult, r.exitCode = 0 → parseStrictVersion (pyStrip r.stdout) = none →
        get_latest_version r = .error (.valueError (pyStrip r.stdout)))
    ∧ (∀ (r : SshResult) (v : StrictVersion), r.exitCode = 0 →
        parseStrictVersion (pyStrip r.stdout) = some v →
        get_latest_version r =
          .ok (if svCmp v svZero = .gt then some (pyStrip r.stdout) else none))
    ∧ (∀ (J : String → Option JsonObj) (cfg : Config) (nodes : List String)
        (env : RunEnv) (s0 : UpgraderState) (n0 : String),
        nodes.head? = some n0 → get_latest_version env.latest = .ok none →
        upgrade J cfg nodes "latest" env s0 = .ok (false, [Event.latestVersionQuery n0])) := by
  refine ⟨?_, ?_, ?_, ?_⟩
  · intro r hexit hstrip
    unfold get_latest_version
    rw [if_neg (by simp [hexit]), hstrip]
    rfl
  · intro r hexit hparse
    unfold get_latest_version
    rw [if_neg (by simp [hexit])]
    simp only [hparse]
  · intro r v hexit hparse
    unfold get_latest_version
    rw [if_neg (by simp [hexit])]
    simp only [hparse]
    split <;> simp_all
  · intro J cfg nodes env s0 n0 hhead hres
    unfold upgrade
    rw [if_pos rfl, hhead, hres]

/-- C8 witness: a query answering `0.0.0` is a failure result, and with the
    version requested as `latest` that aborts the run with only the
    latest-version probe issued. -/
theorem C8_amended_witness :
    get_latest_version (sshOk "0.0.0") = .ok none ∧
    upgrade Jver cfgPlain ["n1", "n2"] "latest" { runEnvOk with latest := sshOk "0.0.0" }
      initState = .ok (false, [Event.latestVersionQuery "n1"]) :=
  ⟨C8_amended.1 (sshOk "0.0.0") rfl rfl,
   C8_amended.2.2.2 Jver cfgPlain ["n1", "n2"]
     { runEnvOk with latest := sshOk "0.0.0" } initState "n1" rfl
     (C8_amended.1 (sshOk "0.0.0") rfl rfl)⟩

/-- C9 counterexample: the claim says `get_node_status` returns the failure
    value and never crashes for every possible remote command result; but a
    command result with exit status 0 and stdout that is not parseable
    structured output (here: empty stdout, which `json.loads` rejects) makes
    it raise instead. -/
theorem C9_counterexample :
    get_node_status Jstatus ⟨"", "", 0⟩ = .error .jsonError := rfl

/-- C9 (amended): `get_node_status` returns the failure value when the
    command exits non-zero or the decoded output lacks a `status` field, and
    its result never depends on stderr; but stdout that fails to decode
    (with exit status 0) raises.  The operation-timed-out stderr text is
    scrubbed before the SSH-error printing decision — with the hide regex
    passed (as `get_node_status` does) nothing is printed for it, without
    the regex it would be printed. -/
theorem C9_amended (J : String → Option JsonObj) :
    (∀ r : SshResult, r.exitCode ≠ 0 → get_node_status J r = .ok none)
    ∧ (∀ (r : SshResult) (d : JsonObj), r.exitCode = 0 → J r.stdout = some d →
        lookupField d "status" = none → get_node_status J r = .ok none)
    ∧ (∀ r : SshResult, r.exitCode = 0 → J r.stdout = none →
        get_node_status J r = .error .jsonError)
    ∧ (∀ (r : SshResult) (e : String),
        get_node_status J { r with stderr := e } = get_node_status J r)
    ∧ ssh_stderr_printed true "Operation timed out" = none
    ∧ ssh_stderr_printed false "Operation timed out" = some "Operation timed out" := by
  refine ⟨?_, ?_, ?_, ?_, rfl, rfl⟩
  · intro r hexit
    unfold get_node_status
    rw [if_pos (by simpa using hexit)]
  · intro r d hexit hdec hfield
    unfold get_node_status
    rw [if_neg (by simp [hexit])]
    simp only [hdec, hfield]
  · intro r hexit hdec
    unfold get_node_status
    rw [if_neg (by simp [hexit])]
    simp only [hdec]
  · intro r e
    rfl

/-- C9 witness: a failed remote command yields the failure value, and the
    benign timed-out stderr is suppressed. -/
theorem C9_amended_witness :
    get_node_status Jstatus sshFail = .ok none ∧
    ssh_stderr_printed true "Operation timed out" = none :=
  ⟨(C9_amended Jstatus).1 sshFail (by decide), (C9_amended Jstatus).2.2.2.2.1⟩

/-- C5 (confirmed): if either pre-flight check against the first node fails
    (cluster not healthy, or rebalance status anything but `notRunning`,
    failure to determine it included), the run returns failure right there,
    with only read-only probes issued (zero nodes touched); and `upgrade`
    reduces to that pre-flight block once the target version is resolved. -/
theorem C5_preflight (J : String → Option JsonObj) (cfg : Config)
    (nodes : List String) (version : String) (env : RunEnv) (s0 : UpgraderState)
    (tr0 : List Event) (n0 : String) (hhead : nodes.head? = some n0) :
    (all_nodes_healthy cfg.port env.preflightServerList = false →
      upgrade_preflight J cfg nodes version env s0 tr0 =
        .ok (false, tr0 ++ [Event.preflightHealthCheck n0]))
    ∧ (∀ st, all_nodes_healthy cfg.port env.preflightServerList = true →
        get_rebalance_status J env.preflightRebalance = .ok st →
        st ≠ some "notRunning" →
        upgrade_preflight J cfg nodes version env s0 tr0 =
          .ok (false, tr0 ++ [Event.preflightHealthCheck n0,
                              Event.preflightRebalanceCheck n0]))
    ∧ (version ≠ "latest" →
        upgrade J cfg nodes version env s0 = upgrade_preflight J cfg nodes version env s0 [])
    ∧ (∀ v, version = "latest" → get_latest_version env.latest = .ok (some v) →
        upgrade J cfg nodes version env s0 =
          upgrade_preflight J cfg nodes v env s0 [Event.latestVersionQuery n0])
    ∧ (Event.latestVersionQuery n0).isMutating = false
    ∧ (Event.preflightHealthCheck n0).isMutating = false
    ∧ (Event.preflightRebalanceCheck n0).isMutating = false := by
  refine ⟨?_, ?_, ?_, ?_, rfl, rfl, rfl⟩
  · intro hfail
    unfold upgrade_preflight
    rw [hhead]
    simp only [hfail]
    rfl
  · intro st hok hreb hst
    unfold upgrade_preflight
    rw [hhead]
    simp only [hok, hreb]
    rw [if_neg hst]
    simp
  · intro hv
    unfold upgrade
    rw [if_neg hv]
  · intro v hv hres
    unfold upgrade
    rw [if_pos hv, hhead, hres]

/-- C5 witness: with an unhealthy member in the pre-flight server list, the
    run returns failure after the health probe alone. -/
theorem C5_preflight_witness :
    upgrade_preflight Jreb cfgPlain ["n1", "n2"] "2.0.0" runEnvUnhealthy initState [] =
      .ok (false, [Event.preflightHealthCheck "n1"]) :=
  (C5_preflight Jreb cfgPlain ["n1", "n2"] "2.0.0" runEnvUnhealthy initState [] "n1"
    rfl).1 (by decide)

theorem upgradeNodes_failStop (J : String → Option JsonObj) (cfg : Config)
    (ne : String → NodeEnv) (version : String) :
    ∀ (pre : List String) (n : String) (rest : List String)
      (s0 s1 s2 : UpgraderState) (tr1 tr2 : List Event),
      upgradeNodes J cfg ne version pre s0 = .ok (true, s1, tr1) →
      upgrade_node J cfg (ne n) n version s1 = .ok (false, s2, tr2) →
      upgradeNodes J cfg ne version (pre ++ n :: rest) s0 = .ok (false, s2, tr1 ++ tr2) := by
  intro pre
  induction pre with
  | nil =>
    intro n rest s0 s1 s2 tr1 tr2 hpre hfail
    simp only [upgradeNodes, Except.ok.injEq, Prod.mk.injEq, true_and] at hpre
    obtain ⟨hs, htr⟩ := hpre
    subst hs htr
    simp only [List.nil_append, upgradeNodes, hfail, List.nil_append]
  | cons p ps ih =>
    intro n rest s0 s1 s2 tr1 tr2 hpre hfail
    simp only [upgradeNodes] at hpre
    rcases hp : upgrade_node J cfg (ne p) p version s0 with e | ⟨b, sp, trp⟩
    · rw [hp] at hpre
      exact absurd hpre (by simp)
    · rw [hp] at hpre
      cases b with
      | false => exact absurd hpre (by simp)
      | true =>
        dsimp only at hpre
        rcases hrec : upgradeNodes J cfg ne version ps sp with e | ⟨b', s'', tr'⟩
        · rw [hrec] at hpre
          exact absurd hpre (by simp)
        · rw [hrec] at hpre
          simp only [Except.ok.injEq, Prod.mk.injEq] at hpre
          obtain ⟨hb, hs, htr⟩ := hpre
          subst hb hs htr
          have hih := ih n rest sp s'' s2 tr' tr2 hrec hfail
          rw [List.cons_append]
          simp only [upgradeNodes, hp, hih]
          simp [List.append_assoc]

/-- C6 (confirmed): if every node before the k-th succeeds and the k-th
    node's upgrade fails, the loop stops with result false and the trace is
    exactly what the earlier nodes and the failing node issued — nothing is
    run on later nodes and nothing (no rollback) after the failing step; the
    whole run then returns failure. -/
theorem C6_abort_on_node_failure (J : String → Option JsonObj) (cfg : Config)
    (env : RunEnv) (version : String) (pre : List String) (n : String)
    (rest : List String) (s0 s1 s2 : UpgraderState) (tr1 tr2 : List Event)
    (hpre : upgradeNodes J cfg env.nodeEnv version pre s0 = .ok (true, s1, tr1))
    (hfail : upgrade_node J cfg (env.nodeEnv n) n version s1 = .ok (false, s2, tr2)) :
    upgradeNodes J cfg env.nodeEnv version (pre ++ n :: rest) s0 =
      .ok (false, s2, tr1 ++ tr2)
    ∧ (∀ n0, (pre ++ n :: rest).head? = some n0 →
        all_nodes_healthy cfg.port env.preflightServerList = true →
        get_rebalance_status J env.preflightRebalance = .ok (some "notRunning") →
        version ≠ "latest" →
        upgrade J cfg (pre ++ n :: rest) version env s0 =
          .ok (false, Event.preflightHealthCheck n0 :: Event.preflightRebalanceCheck n0 ::
                (tr1 ++ tr2))) := by
  have hloop := upgradeNodes_failStop J cfg env.nodeEnv version pre n rest s0 s1 s2 tr1 tr2
    hpre hfail
  refine ⟨hloop, ?_⟩
  intro n0 hhead hok hreb hv
  unfold upgrade
  rw [if_neg hv]
  unfold upgrade_preflight
  rw [hhead]
  simp only [hok, hreb, hloop]
  simp

/-- C6 witness: two nodes, the first fails at service stop; the run returns
    failure and no command is issued for the second node. -/
theorem C6_abort_on_node_failure_witness :
    upgrade Jrun cfgPlain ["n1", "n2"] "2.0.0" runEnvStop1 initState =
      .ok (false, Event.preflightHealthCheck "n1" :: Event.preflightRebalanceCheck "n1" ::
            ([] ++ [Event.versionQuery "n1", Event.stopService "n1"])) :=
  (C6_abort_on_node_failure Jrun cfgPlain runEnvStop1 "2.0.0" [] "n1" ["n2"]
    initState initState initState [] [Event.versionQuery "n1", Event.stopService "n1"]
    rfl rfl).2 "n1" rfl rfl rfl (by decide)

theorem current_version_lower_no_idx (J : String → Option JsonObj) (r : SshResult)
    (version : String) : current_version_lower J r version ≠ .error .indexError := by
  unfold current_version_lower
  split
  · rcases hJ : J r.stdout with _ | data
    · simp
    · rcases hf : lookupField data "version" with _ | vfield
      · simp [hf]
      · simp only [hf]
        rcases hc : parseStrictVersion ((pySplit vfield '-').headD "") with _ | cv
        · simp [hc]
        · simp only [hc]
          rcases ht : parseStrictVersion version with _ | tv
          · simp [ht]
          · simp only [ht]
            split
            · simp
            · split <;> simp
  · simp

theorem node_version_gate_no_idx (J : String → Option JsonObj) (cfg : Config)
    (env : NodeEnv) (node version : String) (s : UpgraderState) :
    node_version_gate J cfg env node version s ≠ .error .indexError := by
  unfold node_version_gate
  split
  · simp
  · split
    · rename_i e heq
      intro hcon
      simp only [Except.error.injEq] at hcon
      exact current_version_lower_no_idx J env.serverInfo version (by rw [heq, hcon])
    · simp
    · split
      · split
        · simp
        · split <;> simp
      · split <;> simp

theorem upgrade_node_no_idx (J : String → Option JsonObj) (cfg : Config)
    (env : NodeEnv) (node version : String) (s0 : UpgraderState) :
    upgrade_node J cfg env node version s0 ≠ .error .indexError := by
  unfold upgrade_node
  rcases hg : node_version_gate J cfg env node version { s0 with rebooting := false }
    with e | ⟨ob, s', tr⟩
  · intro hcon
    dsimp only at hcon
    simp only [Except.error.injEq] at hcon
    exact node_version_gate_no_idx J cfg env node version _ (by rw [hg, hcon])
  · rcases ob with _ | b
    · dsimp only
      rcases hsp : node_service_phase cfg env node s' with ⟨bb, s'', tr2⟩
      rcases ht : node_tail cfg env node with ⟨res, tr3⟩
      cases bb <;> simp [ht]
    · dsimp only
      simp

theorem upgradeNodes_no_idx (J : String → Option JsonObj) (cfg : Config)
    (ne : String → NodeEnv) (version : String) :
    ∀ (nodes : List String) (s : UpgraderState),
      upgradeNodes J cfg ne version nodes s ≠ .error .indexError := by
  intro nodes
  induction nodes with
  | nil => intro s; simp [upgradeNodes]
  | cons n rest ih =>
    intro s
    simp only [upgradeNodes]
    split
    · rename_i e heq
      intro hcon
      simp only [Except.error.injEq] at hcon
      exact upgrade_node_no_idx J cfg (ne n) n version s (by rw [heq, hcon])
    · simp
    · split
      · rename_i s' tr e heq
        intro hcon
        simp only [Except.error.injEq] at hcon
        exact ih _ (by rw [heq, hcon])
      · simp

theorem get_rebalance_status_no_idx (J : String → Option JsonObj) (r : SshResult) :
    get_rebalance_status J r ≠ .error .indexError := by
  unfold get_rebalance_status
  split
  · split
    · simp
    · split <;> simp
  · simp

theorem get_latest_version_no_idx (r : SshResult) :
    get_latest_version r ≠ .error .indexError := by
  unfold get_latest_version
  split
  · simp
  · rcases hp : parseStrictVersion (pyStrip r.stdout) with _ | v
    · simp [hp]
    · simp only [hp]
      split <;> simp

theorem upgrade_preflight_no_idx_of_cons (J : String → Option JsonObj) (cfg : Config)
    (n : String) (rest : List String) (version : String) (env : RunEnv)
    (s0 : UpgraderState) (tr0 : List Event) :
    upgrade_preflight J cfg (n :: rest) version env s0 tr0 ≠ .error .indexError := by
  unfold upgrade_preflight
  simp only [List.head?_cons]
  split
  · simp
  · split
    · rename_i e heq
      intro hcon
      simp only [Except.error.injEq] at hcon
      exact get_rebalance_status_no_idx J env.preflightRebalance (by rw [heq, hcon])
    · split
      · split
        · rename_i heq
          intro hcon
          simp only [Except.error.injEq] at hcon
          exact upgradeNodes_no_idx J cfg env.nodeEnv version (n :: rest) s0
            (by rw [heq, hcon])
        · simp
      · simp

/-- C10 (confirmed): with an empty node list, `upgrade` indexes the first
    element (during latest-version resolution when the version is `latest`,
    during the pre-flight checks otherwise) and raises `IndexError` instead
    of returning a failure result; with any non-empty node list no
    `IndexError` is ever raised. -/
theorem C10_empty_nodes (J : String → Option JsonObj) (cfg : Config)
    (version : String) (env : RunEnv) (s0 : UpgraderState) :
    upgrade J cfg [] version env s0 = .error .indexError
    ∧ (∀ nodes : List String, nodes ≠ [] →
        upgrade J cfg nodes version env s0 ≠ .error .indexError) := by
  constructor
  · unfold upgrade
    split
    · rfl
    · unfold upgrade_preflight
      rfl
  · intro nodes hne
    rcases nodes with _ | ⟨n, rest⟩
    · exact absurd rfl hne
    · unfold upgrade
      split
      · simp only [List.head?_cons]
        split
        · rename_i e heq
          intro hcon
          simp only [Except.error.injEq] at hcon
          exact get_latest_version_no_idx env.latest (by rw [heq, hcon])
        · simp
        · exact upgrade_preflight_no_idx_of_cons J cfg n rest _ env s0 _
      · exact upgrade_preflight_no_idx_of_cons J cfg n rest _ env s0 _

/-- C10 witness: with a one-node list no `IndexError` is raised. -/
theorem C10_empty_nodes_witness :
    upgrade Jrun cfgPlain ["n1"] "2.0.0" runEnvOk initState ≠ .error .indexError :=
  (C10_empty_nodes Jrun cfgPlain "2.0.0" runEnvOk initState).2 ["n1"] (by decide)

theorem node_tail_events (cfg : Config) (env : NodeEnv) (node : String)
    (res : Bool) (tr : List Event) (h : node_tail cfg env node = (res, tr)) :
    Event.rebootNode node ∉ tr ∧ Event.startService node ∉ tr ∧
      Event.stopService node ∉ tr := by
  simp only [node_tail] at h
  split at h
  · injection h with h1 h2
    subst h2
    simp
  · split at h
    · injection h with h1 h2
      subst h2
      simp
    · injection h with h1 h2
      subst h2
      simp

theorem node_service_phase_rebooting (cfg : Config) (env : NodeEnv) (node : String)
    (s : UpgraderState) (h : s.rebooting = true) :
    node_service_phase cfg env node s = (true, s, []) := by
  unfold node_service_phase
  simp [h]

/-- C4 counterexample: the claim says a failed current-version query makes
    the node's attempt fail, and a failed set-recovery-type step is
    reported; but with the version query failing (exit 1) the attempt
    returns success having issued nothing further, and with the recovery
    command failing the attempt still returns success with no step-specific
    failure — its result is discarded. -/
theorem C4_counterexample :
    upgrade_node Jver cfgPlain envVqFail "n1" "2.0.0" initState =
      .ok (true, initState, [Event.versionQuery "n1"])
    ∧ set_recovery_type envRecFail.recovery = false
    ∧ upgrade_node Jver cfgReboot envRecFail "n1" "2.0.0" initState =
        .ok (true, ⟨true, true, false⟩,
          [Event.versionQuery "n1", Event.stopService "n1", Event.upgradeCouchbase "n1",
           Event.rebootNode "n1", Event.awaitHealthy "n1", Event.setRecoveryType "n1" "delta",
           Event.rebalanceStart "n1", Event.awaitRebalanced "n1", Event.checkAllHealthy "n1"]) :=
  ⟨rfl, rfl, rfl⟩

/-- C4 (amended): failures of the stop-service, package-upgrade, OS-upgrade
    (in the main path and in the skip path alike), rebalance and
    final-health-check steps abort the attempt at once with nothing further
    issued; but a failed current-version query is treated exactly like
    "node already up to date" (the attempt continues down the skip path
    and, with no OS upgrading and no forced reboot, returns success), and
    the set-recovery-type result is discarded — its failure neither aborts
    nor is distinctly reported. -/
theorem C4_amended :
    (∀ (J : String → Option JsonObj) (cfg : Config) (env : NodeEnv)
       (node version : String) (s0 : UpgraderState),
       version ≠ "" →
       current_version_lower J env.serverInfo version = .ok true →
       env.serviceStop.exitCode ≠ 0 →
       upgrade_node J cfg env node version s0 =
         .ok (false, { s0 with rebooting := false },
              [Event.versionQuery node, Event.stopService node]))
    ∧ (∀ (J : String → Option JsonObj) (cfg : Config) (env : NodeEnv)
        (node version : String) (s0 : UpgraderState),
        version ≠ "" →
        current_version_lower J env.serverInfo version = .ok true →
        env.serviceStop.exitCode = 0 →
        env.upgradeCmd.exitCode ≠ 0 →
        upgrade_node J cfg env node version s0 =
          .ok (false, { s0 with rebooting := false },
               [Event.versionQuery node, Event.stopService node,
                Event.upgradeCouchbase node]))
    ∧ (∀ (cfg : Config) (env : NodeEnv) (node : String),
        env.rebalanceCmd.exitCode ≠ 0 →
        node_tail cfg env node =
          (false, [Event.awaitHealthy node, Event.setRecoveryType node "delta",
                   Event.rebalanceStart node]))
    ∧ (∀ (cfg : Config) (env : NodeEnv) (node : String),
        env.rebalanceCmd.exitCode = 0 →
        all_nodes_healthy cfg.port env.serverList = false →
        node_tail cfg env node =
          (false, [Event.awaitHealthy node, Event.setRecoveryType node "delta",
                   Event.rebalanceStart node, Event.awaitRebalanced node,
                   Event.checkAllHealthy node]))
    ∧ (∀ (J : String → Option JsonObj) (cfg : Config) (env : NodeEnv)
        (node version : String) (s0 : UpgraderState),
        env.serverInfo.exitCode ≠ 0 → version ≠ "" →
        cfg.upgrade_system = false → cfg.force_reboot = false →
        (cfg.reboot = false ∨ s0.os_upgrades_available = false) →
        upgrade_node J cfg env node version s0 =
          .ok (true, { s0 with rebooting := false }, [Event.versionQuery node]))
    ∧ (∀ (J : String → Option JsonObj) (cfg : Config) (env : NodeEnv)
        (node version : String) (s0 : UpgraderState) (r : SshResult),
        upgrade_node J cfg { env with recovery := r } node version s0 =
          upgrade_node J cfg env node version s0)
    ∧ (∀ (J : String → Option JsonObj) (cfg : Config) (env : NodeEnv)
        (node version : String) (s0 : UpgraderState),
        version ≠ "" →
        current_version_lower J env.serverInfo version = .ok false →
        cfg.upgrade_system = true →
        env.upgradeSystemCmd.exitCode ≠ 0 →
        upgrade_node J cfg env node version s0 =
          .ok (false, { s0 with rebooting := false },
               [Event.versionQuery node, Event.upgradeSystem node]))
    ∧ (∀ (J : String → Option JsonObj) (cfg : Config) (env : NodeEnv)
        (node version : String) (s0 : UpgraderState),
        version ≠ "" →
        current_version_lower J env.serverInfo version = .ok true →
        env.serviceStop.exitCode = 0 →
        env.upgradeCmd.exitCode = 0 →
        cfg.upgrade_system = true →
        env.upgradeSystemCmd.exitCode ≠ 0 →
        upgrade_node J cfg env node version s0 =
          .ok (false,
               ⟨false, !(strContains env.upgradeCmd.stdout "Nothing to do"),
                 s0.os_upgrades_available⟩,
               [Event.versionQuery node, Event.stopService node,
                Event.upgradeCouchbase node, Event.upgradeSystem node])) := by
  refine ⟨?_, ?_, ?_, ?_, ?_, ?_, ?_, ?_⟩
  · intro J cfg env node version s0 hv hcvl hstop
    have hstop' : (env.serviceStop.exitCode == 0) = false := by
      simpa using hstop
    unfold upgrade_node node_version_gate
    rw [if_neg hv, hcvl]
    dsimp only
    unfold node_service_phase
    simp [stop_service, hstop']
  · intro J cfg env node version s0 hv hcvl hstop hcb
    have hstop' : (env.serviceStop.exitCode == 0) = true := by
      simpa using hstop
    have hcb' : (env.upgradeCmd.exitCode != 0) = true := by
      simpa using hcb
    unfold upgrade_node node_version_gate
    rw [if_neg hv, hcvl]
    dsimp only
    unfold node_service_phase
    simp [stop_service, hstop', upgrade_couchbase, hcb']
  · intro cfg env node hreb
    have hreb' : (env.rebalanceCmd.exitCode == 0) = false := by
      simpa using hreb
    unfold node_tail
    simp [rebalance, hreb']
  · intro cfg env node hreb hhealth
    have hreb' : (env.rebalanceCmd.exitCode == 0) = true := by
      simpa using hreb
    unfold node_tail
    simp [rebalance, hreb', hhealth]
  · intro J cfg env node version s0 hvq hv hus hforce hro
    have hcvl : current_version_lower J env.serverInfo version = .ok false := by
      unfold current_version_lower
      rw [if_neg (by simpa using hvq)]
    unfold upgrade_node node_version_gate
    rw [if_neg hv, hcvl]
    dsimp only
    rw [if_neg (by simp [hus])]
    rcases hro with hro | hro <;> simp [hforce, hro]
  · intro J cfg env node version s0 r
    cases env
    rfl
  · intro J cfg env node version s0 hv hcvl hus hosf
    have hosf' : (env.upgradeSystemCmd.exitCode != 0) = true := by
      simpa using hosf
    unfold upgrade_node node_version_gate
    rw [if_neg hv, hcvl]
    dsimp only
    rw [if_pos hus]
    simp [upgrade_system, hosf']
  · intro J cfg env node version s0 hv hcvl hstop hcb hus hosf
    have hstop' : (env.serviceStop.exitCode == 0) = true := by
      simpa using hstop
    have hcb' : (env.upgradeCmd.exitCode != 0) = false := by
      simpa using hcb
    have hosf' : (env.upgradeSystemCmd.exitCode != 0) = true := by
      simpa using hosf
    unfold upgrade_node node_version_gate
    rw [if_neg hv, hcvl]
    dsimp only
    unfold node_service_phase
    simp [stop_service, hstop', upgrade_couchbase, hcb', hus, upgrade_system, hosf']

/-- C4 witness: a concrete attempt aborted at the failing stop-service step,
    and one aborted at the failing OS-upgrade step of the skip path. -/
theorem C4_amended_witness :
    upgrade_node Jver cfgPlain envStopFail "n1" "2.0.0" initState =
      .ok (false, initState, [Event.versionQuery "n1", Event.stopService "n1"])
    ∧ upgrade_node Jver cfgSys envOsFailCur "n1" "2.0.0" initState =
      .ok (false, initState, [Event.versionQuery "n1", Event.upgradeSystem "n1"]) :=
  ⟨C4_amended.1 Jver cfgPlain envStopFail "n1" "2.0.0" initState (by decide) rfl (by decide),
   C4_amended.2.2.2.2.2.2.1 Jver cfgSys envOsFailCur "n1" "2.0.0" initState
     (by decide) rfl rfl (by decide)⟩

theorem node_version_gate_cases (J : String → Option JsonObj) (cfg : Config)
    (env : NodeEnv) (node version : String) (s : UpgraderState) :
    (∃ e, node_version_gate J cfg env node version s = .error e)
    ∨ (version = "" ∧ node_version_gate J cfg env node version s = .ok (none, s, []))
    ∨ node_version_gate J cfg env node version s = .ok (none, s, [Event.versionQuery node])
    ∨ (∃ s1, node_version_gate J cfg env node version s =
        .ok (some false, s1, [Event.versionQuery node, Event.upgradeSystem node]))
    ∨ (∃ s1, s1.rebooting = true ∧ node_version_gate J cfg env node version s =
        .ok (none, s1, [Event.versionQuery node, Event.upgradeSystem node,
                        Event.rebootNode node]))
    ∨ (∃ s1, node_version_gate J cfg env node version s =
        .ok (some true, s1, [Event.versionQuery node, Event.upgradeSystem node]))
    ∨ (node_version_gate J cfg env node version s =
        .ok (none, { s with rebooting := true },
             [Event.versionQuery node, Event.rebootNode node]))
    ∨ node_version_gate J cfg env node version s = .ok (some true, s, [Event.versionQuery node]) := by
  unfold node_version_gate
  by_cases hv : version = ""
  · rw [if_pos hv]
    exact Or.inr (Or.inl ⟨hv, rfl⟩)
  · rw [if_neg hv]
    rcases hcvl : current_version_lower J env.serverInfo version with e | b
    · exact Or.inl ⟨e, rfl⟩
    · cases b with
      | true => exact Or.inr (Or.inr (Or.inl rfl))
      | false =>
        dsimp only
        by_cases hus : cfg.upgrade_system = true
        · rw [if_pos hus]
          rcases hosr : upgrade_system env.upgradeSystemCmd s with ⟨ob, s1⟩
          cases ob with
          | false =>
            exact Or.inr (Or.inr (Or.inr (Or.inl ⟨s1, rfl⟩)))
          | true =>
            dsimp only
            by_cases hg : (cfg.force_reboot || (cfg.reboot && s1.os_upgrades_available)) = true
            · rw [if_pos hg]
              exact Or.inr (Or.inr (Or.inr (Or.inr (Or.inl ⟨{ s1 with rebooting := true },
                rfl, rfl⟩))))
            · rw [if_neg hg]
              exact Or.inr (Or.inr (Or.inr (Or.inr (Or.inr (Or.inl ⟨s1, rfl⟩)))))
        · rw [if_neg hus]
          by_cases hg : (cfg.force_reboot || (cfg.reboot && s.os_upgrades_available)) = true
          · rw [if_pos hg]
            exact Or.inr (Or.inr (Or.inr (Or.inr (Or.inr (Or.inr (Or.inl rfl))))))
          · rw [if_neg hg]
            exact Or.inr (Or.inr (Or.inr (Or.inr (Or.inr (Or.inr (Or.inr rfl))))))

theorem node_service_phase_cases (cfg : Config) (env : NodeEnv) (node : String)
    (s : UpgraderState) (h : s.rebooting = false) :
    node_service_phase cfg env node s = (false, s, [Event.stopService node])
    ∨ (∃ s1, node_service_phase cfg env node s =
        (false, s1, [Event.stopService node, Event.upgradeCouchbase node]))
    ∨ (∃ s2, node_service_phase cfg env node s =
        (false, s2, [Event.stopService node, Event.upgradeCouchbase node,
                     Event.upgradeSystem node]))
    ∨ (∃ s2, node_service_phase cfg env node s =
        (true, s2, [Event.stopService node, Event.upgradeCouchbase node,
                    Event.upgradeSystem node, Event.rebootNode node]))
    ∨ (∃ s2 b, node_service_phase cfg env node s =
        (b, s2, [Event.stopService node, Event.upgradeCouchbase node,
                 Event.upgradeSystem node, Event.startService node]))
    ∨ (∃ s1, node_service_phase cfg env node s =
        (true, s1, [Event.stopService node, Event.upgradeCouchbase node,
                    Event.rebootNode node]))
    ∨ (∃ s1 b, node_service_phase cfg env node s =
        (b, s1, [Event.stopService node, Event.upgradeCouchbase node,
                 Event.startService node])) := by
  unfold node_service_phase
  rw [if_neg (by simp [h])]
  by_cases hstop : stop_service env.serviceStop = true
  · rw [if_neg (by simp [hstop])]
    rcases hcb : upgrade_couchbase env.upgradeCmd s with ⟨ob, s1⟩
    cases ob with
    | false => exact Or.inr (Or.inl ⟨s1, rfl⟩)
    | true =>
      dsimp only
      by_cases hus : cfg.upgrade_system = true
      · rw [if_pos hus]
        rcases hos : upgrade_system env.upgradeSystemCmd s1 with ⟨ob2, s2⟩
        cases ob2 with
        | false => exact Or.inr (Or.inr (Or.inl ⟨s2, rfl⟩))
        | true =>
          dsimp only
          by_cases hg : (cfg.force_reboot ||
              (cfg.reboot && (s2.couchbase_upgrades_available ||
                s2.os_upgrades_available))) = true
          · rw [if_pos hg]
            exact Or.inr (Or.inr (Or.inr (Or.inl ⟨{ s2 with rebooting := true }, rfl⟩)))
          · rw [if_neg hg]
            by_cases hstart : start_service env.serviceStart = true
            · rw [if_neg (by simp [hstart])]
              exact Or.inr (Or.inr (Or.inr (Or.inr (Or.inl ⟨s2, true, rfl⟩))))
            · rw [if_pos (by simp [Bool.eq_false_iff.mpr, Bool.not_eq_true] at hstart ⊢; simp [hstart])]
              exact Or.inr (Or.inr (Or.inr (Or.inr (Or.inl ⟨s2, false, rfl⟩))))
      · rw [if_neg hus]
        by_cases hg : (cfg.force_reboot ||
            (cfg.reboot && (s1.couchbase_upgrades_available ||
              s1.os_upgrades_available))) = true
        · rw [if_pos hg]
          exact Or.inr (Or.inr (Or.inr (Or.inr (Or.inr (Or.inl ⟨{ s1 with rebooting := true },
            rfl⟩)))))
        · rw [if_neg hg]
          by_cases hstart : start_service env.serviceStart = true
          · rw [if_neg (by simp [hstart])]
            exact Or.inr (Or.inr (Or.inr (Or.inr (Or.inr (Or.inr ⟨s1, true, rfl⟩)))))
          · rw [if_pos (by simp [Bool.not_eq_true] at hstart ⊢; simp [hstart])]
            exact Or.inr (Or.inr (Or.inr (Or.inr (Or.inr (Or.inr ⟨s1, false, rfl⟩)))))
  · rw [if_pos (by simp [Bool.not_eq_true] at hstop ⊢; simp [hstop])]
    exact Or.inl rfl

/-- C3 counterexample: the claim says that when a reboot is issued, neither
    the service-stop nor the service-start command is separately invoked for
    that node; but in the normal upgrade path the stop command has already
    been issued before the reboot decision, so a rebooted attempt's trace
    contains both a stop and a reboot. -/
theorem C3_counterexample :
    upgrade_node Jver cfgReboot envChanged "n1" "2.0.0" initState =
      .ok (true, ⟨true, true, false⟩,
        [Event.versionQuery "n1", Event.stopService "n1", Event.upgradeCouchbase "n1",
         Event.rebootNode "n1", Event.awaitHealthy "n1", Event.setRecoveryType "n1" "delta",
         Event.rebalanceStart "n1", Event.awaitRebalanced "n1", Event.checkAllHealthy "n1"])
    ∧ Event.rebootNode "n1" ∈
        [Event.versionQuery "n1", Event.stopService "n1", Event.upgradeCouchbase "n1",
         Event.rebootNode "n1", Event.awaitHealthy "n1", Event.setRecoveryType "n1" "delta",
         Event.rebalanceStart "n1", Event.awaitRebalanced "n1", Event.checkAllHealthy "n1"]
    ∧ Event.stopService "n1" ∈
        [Event.versionQuery "n1", Event.stopService "n1", Event.upgradeCouchbase "n1",
         Event.rebootNode "n1", Event.awaitHealthy "n1", Event.setRecoveryType "n1" "delta",
         Event.rebalanceStart "n1", Event.awaitRebalanced "n1", Event.checkAllHealthy "n1"] :=
  ⟨rfl, by decide, by decide⟩

/-- C3 (amended): in every attempt that issues a reboot, the service-start
    command is never invoked for that node, and the service-stop command is
    never invoked after the reboot — though in the normal upgrade path it
    was invoked before the reboot decision. -/
theorem C3_amended (J : String → Option JsonObj) (cfg : Config) (env : NodeEnv)
    (node version : String) (s0 : UpgraderState) (b : Bool) (s' : UpgraderState)
    (tr : List Event)
    (hrun : upgrade_node J cfg env node version s0 = .ok (b, s', tr))
    (hreb : Event.rebootNode node ∈ tr) :
    Event.startService node ∉ tr ∧
      Event.stopService node ∉ afterEvent (Event.rebootNode node) tr := by
  unfold upgrade_node at hrun
  rcases node_version_gate_cases J cfg env node version { s0 with rebooting := false } with
    ⟨e, hg⟩ | ⟨hv, hg⟩ | hg | ⟨s1, hg⟩ | ⟨s1, hrb, hg⟩ | ⟨s1, hg⟩ | hg | hg
  · rw [hg] at hrun
    exact absurd hrun (by simp)
  -- gate fell through with no event (empty version string)
  · rw [hg] at hrun
    dsimp only at hrun
    rcases node_service_phase_cases cfg env node { s0 with rebooting := false } rfl with
      hs | ⟨t1, hs⟩ | ⟨t1, hs⟩ | ⟨t1, hs⟩ | ⟨t1, b1, hs⟩ | ⟨t1, hs⟩ | ⟨t1, b1, hs⟩
    · rw [hs] at hrun
      dsimp only at hrun
      simp only [Except.ok.injEq, Prod.mk.injEq] at hrun
      obtain ⟨_, _, htr⟩ := hrun
      subst htr
      simp at hreb
    · rw [hs] at hrun
      dsimp only at hrun
      simp only [Except.ok.injEq, Prod.mk.injEq] at hrun
      obtain ⟨_, _, htr⟩ := hrun
      subst htr
      simp at hreb
    · rw [hs] at hrun
      dsimp only at hrun
      simp only [Except.ok.injEq, Prod.mk.injEq] at hrun
      obtain ⟨_, _, htr⟩ := hrun
      subst htr
      simp at hreb
    · rw [hs] at hrun
      dsimp only at hrun
      rcases ht : node_tail cfg env node with ⟨res, trT⟩
      rw [ht] at hrun
      dsimp only at hrun
      simp only [Except.ok.injEq, Prod.mk.injEq] at hrun
      obtain ⟨_, _, htr⟩ := hrun
      subst htr
      have hT := node_tail_events cfg env node res trT ht
      refine ⟨?_, ?_⟩
      · simp [hT.2.1]
      · simp [afterEvent, hT.2.2]
    · cases b1 with
      | false =>
        rw [hs] at hrun
        dsimp only at hrun
        simp only [Except.ok.injEq, Prod.mk.injEq] at hrun
        obtain ⟨_, _, htr⟩ := hrun
        subst htr
        simp at hreb
      | true =>
        rw [hs] at hrun
        dsimp only at hrun
        rcases ht : node_tail cfg env node with ⟨res, trT⟩
        rw [ht] at hrun
        dsimp only at hrun
        simp only [Except.ok.injEq, Prod.mk.injEq] at hrun
        obtain ⟨_, _, htr⟩ := hrun
        subst htr
        have hT := node_tail_events cfg env node res trT ht
        simp [hT.1] at hreb
    · rw [hs] at hrun
      dsimp only at hrun
      rcases ht : node_tail cfg env node with ⟨res, trT⟩
      rw [ht] at hrun
      dsimp only at hrun
      simp only [Except.ok.injEq, Prod.mk.injEq] at hrun
      obtain ⟨_, _, htr⟩ := hrun
      subst htr
      have hT := node_tail_events cfg env node res trT ht
      refine ⟨?_, ?_⟩
      · simp [hT.2.1]
      · simp [afterEvent, hT.2.2]
    · cases b1 with
      | false =>
        rw [hs] at hrun
        dsimp only at hrun
        simp only [Except.ok.injEq, Prod.mk.injEq] at hrun
        obtain ⟨_, _, htr⟩ := hrun
        subst htr
        simp at hreb
      | true =>
        rw [hs] at hrun
        dsimp only at hrun
        rcases ht : node_tail cfg env node with ⟨res, trT⟩
        rw [ht] at hrun
        dsimp only at hrun
        simp only [Except.ok.injEq, Prod.mk.injEq] at hrun
        obtain ⟨_, _, htr⟩ := hrun
        subst htr
        have hT := node_tail_events cfg env node res trT ht
        simp [hT.1] at hreb
  -- gate fell through after the version query alone
  · rw [hg] at hrun
    dsimp only at hrun
    rcases node_service_phase_cases cfg env node { s0 with rebooting := false } rfl with
      hs | ⟨t1, hs⟩ | ⟨t1, hs⟩ | ⟨t1, hs⟩ | ⟨t1, b1, hs⟩ | ⟨t1, hs⟩ | ⟨t1, b1, hs⟩
    · rw [hs] at hrun
      dsimp only at hrun
      simp only [Except.ok.injEq, Prod.mk.injEq] at hrun
      obtain ⟨_, _, htr⟩ := hrun
      subst htr
      simp at hreb
    · rw [hs] at hrun
      dsimp only at hrun
      simp only [Except.ok.injEq, Prod.mk.injEq] at hrun
      obtain ⟨_, _, htr⟩ := hrun
      subst htr
      simp at hreb
    · rw [hs] at hrun
      dsimp only at hrun
      simp only [Except.ok.injEq, Prod.mk.injEq] at hrun
      obtain ⟨_, _, htr⟩ := hrun
      subst htr
      simp at hreb
    · rw [hs] at hrun
      dsimp only at hrun
      rcases ht : node_tail cfg env node with ⟨res, trT⟩
      rw [ht] at hrun
      dsimp only at hrun
      simp only [Except.ok.injEq, Prod.mk.injEq] at hrun
      obtain ⟨_, _, htr⟩ := hrun
      subst htr
      have hT := node_tail_events cfg env node res trT ht
      refine ⟨?_, ?_⟩
      · simp [hT.2.1]
      · simp [afterEvent, hT.2.2]
    · cases b1 with
      | false =>
        rw [hs] at hrun
        dsimp only at hrun
        simp only [Except.ok.injEq, Prod.mk.injEq] at hrun
        obtain ⟨_, _, htr⟩ := hrun
        subst htr
        simp at hreb
      | true =>
        rw [hs] at hrun
        dsimp only at hrun
        rcases ht : node_tail cfg env node with ⟨res, trT⟩
        rw [ht] at hrun
        dsimp only at hrun
        simp only [Except.ok.injEq, Prod.mk.injEq] at hrun
        obtain ⟨_, _, htr⟩ := hrun
        subst htr
        have hT := node_tail_events cfg env node res trT ht
        simp [hT.1] at hreb
    · rw [hs] at hrun
      dsimp only at hrun
      rcases ht : node_tail cfg env node with ⟨res, trT⟩
      rw [ht] at hrun
      dsimp only at hrun
      simp only [Except.ok.injEq, Prod.mk.injEq] at hrun
      obtain ⟨_, _, htr⟩ := hrun
      subst htr
      have hT := node_tail_events cfg env node res trT ht
      refine ⟨?_, ?_⟩
      · simp [hT.2.1]
      · simp [afterEvent, hT.2.2]
    · cases b1 with
      | false =>
        rw [hs] at hrun
        dsimp only at hrun
        simp only [Except.ok.injEq, Prod.mk.injEq] at hrun
        obtain ⟨_, _, htr⟩ := hrun
        subst htr
        simp at hreb
      | true =>
        rw [hs] at hrun
        dsimp only at hrun
        rcases ht : node_tail cfg env node with ⟨res, trT⟩
        rw [ht] at hrun
        dsimp only at hrun
        simp only [Except.ok.injEq, Prod.mk.injEq] at hrun
        obtain ⟨_, _, htr⟩ := hrun
        subst htr
        have hT := node_tail_events cfg env node res trT ht
        simp [hT.1] at hreb
  -- gate returned early: OS upgrade failed in the skip path
  · rw [hg] at hrun
    dsimp only at hrun
    simp only [Except.ok.injEq, Prod.mk.injEq] at hrun
    obtain ⟨_, _, htr⟩ := hrun
    subst htr
    simp at hreb
  -- skip path with reboot: service block skipped entirely
  · rw [hg] at hrun
    dsimp only at hrun
    rw [node_service_phase_rebooting cfg env node s1 hrb] at hrun
    dsimp only at hrun
    rcases ht : node_tail cfg env node with ⟨res, trT⟩
    rw [ht] at hrun
    dsimp only at hrun
    simp only [Except.ok.injEq, Prod.mk.injEq] at hrun
    obtain ⟨_, _, htr⟩ := hrun
    subst htr
    have hT := node_tail_events cfg env node res trT ht
    refine ⟨?_, ?_⟩
    · simp [hT.2.1]
    · simp [afterEvent, hT.2.2]
  -- gate returned early with success (skip path, no reboot, OS upgraded)
  · rw [hg] at hrun
    dsimp only at hrun
    simp only [Except.ok.injEq, Prod.mk.injEq] at hrun
    obtain ⟨_, _, htr⟩ := hrun
    subst htr
    simp at hreb
  -- skip path with reboot, no OS upgrade configured
  · rw [hg] at hrun
    dsimp only at hrun
    rw [node_service_phase_rebooting cfg env node _ rfl] at hrun
    dsimp only at hrun
    rcases ht : node_tail cfg env node with ⟨res, trT⟩
    rw [ht] at hrun
    dsimp only at hrun
    simp only [Except.ok.injEq, Prod.mk.injEq] at hrun
    obtain ⟨_, _, htr⟩ := hrun
    subst htr
    have hT := node_tail_events cfg env node res trT ht
    refine ⟨?_, ?_⟩
    · simp [hT.2.1]
    · simp [afterEvent, hT.2.2]
  -- gate returned early with success after the version query alone
  · rw [hg] at hrun
    dsimp only at hrun
    simp only [Except.ok.injEq, Prod.mk.injEq] at hrun
    obtain ⟨_, _, htr⟩ := hrun
    subst htr
    simp at hreb

/-- C3 witness: a forced reboot on an already-current node issues the reboot
    with no separate service start, and no service stop after the reboot. -/
theorem C3_amended_witness :
    Event.startService "n1" ∉
      ([Event.versionQuery "n1", Event.rebootNode "n1", Event.awaitHealthy "n1",
        Event.setRecoveryType "n1" "delta", Event.rebalanceStart "n1",
        Event.awaitRebalanced "n1", Event.checkAllHealthy "n1"] : List Event)
    ∧ Event.stopService "n1" ∉ afterEvent (Event.rebootNode "n1")
        [Event.versionQuery "n1", Event.rebootNode "n1", Event.awaitHealthy "n1",
         Event.setRecoveryType "n1" "delta", Event.rebalanceStart "n1",
         Event.awaitRebalanced "n1", Event.checkAllHealthy "n1"] :=
  C3_amended Jver cfgForce envCurrent "n1" "2.0.0" initState true
    ⟨true, false, false⟩ _ rfl (by decide)

theorem node_version_gate_rel (J : String → Option JsonObj) (cfg : Config)
    (env : NodeEnv) (node version : String) (t1 t2 : UpgraderState)
    (hr : t1.rebooting = t2.rebooting)
    (hosf : cfg.upgrade_system = false →
      t1.os_upgrades_available = t2.os_upgrades_available) :
    (∃ e, node_version_gate J cfg env node version t1 = .error e ∧
          node_version_gate J cfg env node version t2 = .error e)
    ∨ (∃ ob tr u1 u2,
        node_version_gate J cfg env node version t1 = .ok (ob, u1, tr) ∧
        node_version_gate J cfg env node version t2 = .ok (ob, u2, tr) ∧
        u1.rebooting = u2.rebooting ∧
        (cfg.upgrade_system = false →
          u1.os_upgrades_available = u2.os_upgrades_available)) := by
  by_cases hv : version = ""
  · exact Or.inr ⟨none, [], t1, t2,
      by unfold node_version_gate; rw [if_pos hv],
      by unfold node_version_gate; rw [if_pos hv], hr, hosf⟩
  · rcases hcvl : current_version_lower J env.serverInfo version with e | b
    · exact Or.inl ⟨e,
        by unfold node_version_gate; rw [if_neg hv, hcvl],
        by unfold node_version_gate; rw [if_neg hv, hcvl]⟩
    · cases b with
      | true =>
        exact Or.inr ⟨none, [Event.versionQuery node], t1, t2,
          by unfold node_version_gate; rw [if_neg hv, hcvl],
          by unfold node_version_gate; rw [if_neg hv, hcvl], hr, hosf⟩
      | false =>
        by_cases hus : cfg.upgrade_system = true
        · by_cases hosx : (env.upgradeSystemCmd.exitCode != 0) = true
          · exact Or.inr ⟨some false, [Event.versionQuery node, Event.upgradeSystem node],
              t1, t2,
              by unfold node_version_gate
                 rw [if_neg hv, hcvl]
                 dsimp only
                 rw [if_pos hus]
                 simp [upgrade_system, hosx],
              by unfold node_version_gate
                 rw [if_neg hv, hcvl]
                 dsimp only
                 rw [if_pos hus]
                 simp [upgrade_system, hosx], hr, hosf⟩
          · by_cases hg : (cfg.force_reboot ||
                (cfg.reboot &&
                  !(strContains env.upgradeSystemCmd.stdout
                      "No packages marked for update"))) = true
            · refine Or.inr ⟨none, [Event.versionQuery node, Event.upgradeSystem node,
                Event.rebootNode node],
                ⟨true, t1.couchbase_upgrades_available,
                  !(strContains env.upgradeSystemCmd.stdout "No packages marked for update")⟩,
                ⟨true, t2.couchbase_upgrades_available,
                  !(strContains env.upgradeSystemCmd.stdout "No packages marked for update")⟩,
                ?_, ?_, rfl, fun _ => rfl⟩
              · unfold node_version_gate
                rw [if_neg hv, hcvl]
                dsimp only
                rw [if_pos hus]
                simp [upgrade_system, hosx, hg]
              · unfold node_version_gate
                rw [if_neg hv, hcvl]
                dsimp only
                rw [if_pos hus]
                simp [upgrade_system, hosx, hg]
            · refine Or.inr ⟨some true, [Event.versionQuery node, Event.upgradeSystem node],
                ⟨t1.rebooting, t1.couchbase_upgrades_available,
                  !(strContains env.upgradeSystemCmd.stdout "No packages marked for update")⟩,
                ⟨t2.rebooting, t2.couchbase_upgrades_available,
                  !(strContains env.upgradeSystemCmd.stdout "No packages marked for update")⟩,
                ?_, ?_, hr, fun _ => rfl⟩
              · unfold node_version_gate
                rw [if_neg hv, hcvl]
                dsimp only
                rw [if_pos hus]
                simp [upgrade_system, hosx, hg]
              · unfold node_version_gate
                rw [if_neg hv, hcvl]
                dsimp only
                rw [if_pos hus]
                simp [upgrade_system, hosx, hg]
        · have hus' : cfg.upgrade_system = false := by
            simpa using hus
          have hos := hosf hus'
          by_cases hg : (cfg.force_reboot ||
              (cfg.reboot && t1.os_upgrades_available)) = true
          · refine Or.inr ⟨none, [Event.versionQuery node, Event.rebootNode node],
              { t1 with rebooting := true }, { t2 with rebooting := true },
              ?_, ?_, rfl, fun _ => by simpa using hos⟩
            · unfold node_version_gate
              rw [if_neg hv, hcvl]
              dsimp only
              rw [if_neg (by simp [hus'])]
              simp [hg]
            · unfold node_version_gate
              rw [if_neg hv, hcvl]
              dsimp only
              rw [if_neg (by simp [hus'])]
              rw [if_pos (by rw [← hos]; exact hg)]
          · refine Or.inr ⟨some true, [Event.versionQuery node], t1, t2,
              ?_, ?_, hr, hosf⟩
            · unfold node_version_gate
              rw [if_neg hv, hcvl]
              dsimp only
              rw [if_neg (by simp [hus'])]
              rw [if_neg hg]
            · unfold node_version_gate
              rw [if_neg hv, hcvl]
              dsimp only
              rw [if_neg (by simp [hus'])]
              rw [if_neg (by rw [← hos]; exact hg)]

theorem node_service_phase_rel (cfg : Config) (env : NodeEnv) (node : String)
    (t1 t2 : UpgraderState)
    (hr : t1.rebooting = t2.rebooting)
    (hosf : cfg.upgrade_system = false →
      t1.os_upgrades_available = t2.os_upgrades_available) :
    (node_service_phase cfg env node t1).1 = (node_service_phase cfg env node t2).1 ∧
    (node_service_phase cfg env node t1).2.2 = (node_service_phase cfg env node t2).2.2 := by
  cases hb1 : t1.rebooting with
  | true =>
    have hb2 : t2.rebooting = true := by rw [← hr, hb1]
    constructor <;> simp [node_service_phase, hb1, hb2]
  | false =>
    have hb2 : t2.rebooting = false := by rw [← hr, hb1]
    by_cases hstop : stop_service env.serviceStop = true
    · by_cases hcb : (env.upgradeCmd.exitCode != 0) = true
      · constructor <;>
          simp [node_service_phase, hb1, hb2, hstop, upgrade_couchbase, hcb]
      · by_cases hus : cfg.upgrade_system = true
        · by_cases hosx : (env.upgradeSystemCmd.exitCode != 0) = true
          · constructor <;>
              simp [node_service_phase, hb1, hb2, hstop, upgrade_couchbase, hcb,
                    upgrade_system, hus, hosx]
          · by_cases hg : (cfg.force_reboot || (cfg.reboot &&
                (!(strContains env.upgradeCmd.stdout "Nothing to do") ||
                 !(strContains env.upgradeSystemCmd.stdout
                     "No packages marked for update")))) = true
            · constructor <;>
                simp [node_service_phase, hb1, hb2, hstop, upgrade_couchbase, hcb,
                      upgrade_system, hus, hosx, hg]
            · by_cases hstart : start_service env.serviceStart = true
              · constructor <;>
                  simp [node_service_phase, hb1, hb2, hstop, upgrade_couchbase, hcb,
                        upgrade_system, hus, hosx, hg, hstart]
              · constructor <;>
                  simp [node_service_phase, hb1, hb2, hstop, upgrade_couchbase, hcb,
                        upgrade_system, hus, hosx, hg, hstart]
        · have hus' : cfg.upgrade_system = false := by simpa using hus
          have hos := hosf hus'
          by_cases hg : (cfg.force_reboot || (cfg.reboot &&
              (!(strContains env.upgradeCmd.stdout "Nothing to do") ||
               t1.os_upgrades_available))) = true
          · constructor <;>
              simp [node_service_phase, hb1, hb2, hstop, upgrade_couchbase, hcb,
                    hus', ← hos, hg]
          · by_cases hstart : start_service env.serviceStart = true
            · constructor <;>
                simp [node_service_phase, hb1, hb2, hstop, upgrade_couchbase, hcb,
                      hus', ← hos, hg, hstart]
            · constructor <;>
                simp [node_service_phase, hb1, hb2, hstop, upgrade_couchbase, hcb,
                      hus', ← hos, hg, hstart]
    · constructor <;> simp [node_service_phase, hb1, hb2, hstop]

theorem upgrade_node_obs (J : String → Option JsonObj) (cfg : Config) (env : NodeEnv)
    (node version : String) (s1 s2 : UpgraderState)
    (h1 : cfg.upgrade_system = false → s1.os_upgrades_available = false)
    (h2 : cfg.upgrade_system = false → s2.os_upgrades_available = false) :
    observable (upgrade_node J cfg env node version s1) =
      observable (upgrade_node J cfg env node version s2) := by
  unfold upgrade_node
  rcases node_version_gate_rel J cfg env node version
      { s1 with rebooting := false } { s2 with rebooting := false } rfl
      (fun h => by rw [h1 h, h2 h]) with
    ⟨e, hg1, hg2⟩ | ⟨ob, tr, u1, u2, hg1, hg2, hur, huos⟩
  · rw [hg1, hg2]
  · rw [hg1, hg2]
    rcases ob with _ | b
    · dsimp only
      have hrel := node_service_phase_rel cfg env node u1 u2 hur huos
      rcases hn1 : node_service_phase cfg env node u1 with ⟨b1, w1, trS1⟩
      rcases hn2 : node_service_phase cfg env node u2 with ⟨b2, w2, trS2⟩
      rw [hn1, hn2] at hrel
      dsimp only at hrel
      obtain ⟨hb, htr⟩ := hrel
      subst hb htr
      cases b1 with
      | false => rfl
      | true =>
        rcases ht : node_tail cfg env node with ⟨res, trT⟩
        rfl
    · rfl

theorem node_version_gate_preserves_os (J : String → Option JsonObj) (cfg : Config)
    (env : NodeEnv) (node version : String) (t : UpgraderState)
    (hus : cfg.upgrade_system = false) (ob : Option Bool) (u : UpgraderState)
    (tr : List Event)
    (h : node_version_gate J cfg env node version t = .ok (ob, u, tr)) :
    u.os_upgrades_available = t.os_upgrades_available := by
  unfold node_version_gate at h
  by_cases hv : version = ""
  · rw [if_pos hv] at h
    simp only [Except.ok.injEq, Prod.mk.injEq] at h
    rw [← h.2.1]
  · rw [if_neg hv] at h
    rcases hcvl : current_version_lower J env.serverInfo version with e | b <;>
      rw [hcvl] at h
    · exact absurd h (by simp)
    · cases b with
      | true =>
        dsimp only at h
        simp only [Except.ok.injEq, Prod.mk.injEq] at h
        rw [← h.2.1]
      | false =>
        dsimp only at h
        rw [if_neg (by simp [hus])] at h
        split at h <;>
          (simp only [Except.ok.injEq, Prod.mk.injEq] at h; rw [← h.2.1])

theorem node_service_phase_preserves_os (cfg : Config) (env : NodeEnv) (node : String)
    (t : UpgraderState) (hus : cfg.upgrade_system = false) (b : Bool)
    (u : UpgraderState) (tr : List Event)
    (h : node_service_phase cfg env node t = (b, u, tr)) :
    u.os_upgrades_available = t.os_upgrades_available := by
  unfold node_service_phase at h
  by_cases hreb : t.rebooting = true
  · rw [if_pos hreb] at h
    injection h with h1 h2
    injection h2 with h2 h3
    rw [← h2]
  · rw [if_neg hreb] at h
    split at h
    · injection h with h1 h2
      injection h2 with h2 h3
      rw [← h2]
    · rcases hcb : upgrade_couchbase env.upgradeCmd t with ⟨ob, w⟩
      rw [hcb] at h
      have hwt : w.os_upgrades_available = t.os_upgrades_available := by
        unfold upgrade_couchbase at hcb
        split at hcb <;>
          (injection hcb with hb1 hb2; rw [← hb2])
      cases ob with
      | false =>
        dsimp only at h
        injection h with h1 h2
        injection h2 with h2 h3
        rw [← h2, hwt]
      | true =>
        dsimp only at h
        rw [if_neg (by simp [hus])] at h
        split at h
        · injection h with h1 h2
          injection h2 with h2 h3
          rw [← h2]
          simpa using hwt
        · split at h
          · injection h with h1 h2
            injection h2 with h2 h3
            rw [← h2]
            simpa using hwt
          · injection h with h1 h2
            injection h2 with h2 h3
            rw [← h2]
            simpa using hwt

theorem upgrade_node_preserves_os (J : String → Option JsonObj) (cfg : Config)
    (env : NodeEnv) (node version : String) (s0 : UpgraderState)
    (hus : cfg.upgrade_system = false) (b : Bool) (s' : UpgraderState)
    (tr : List Event)
    (hrun : upgrade_node J cfg env node version s0 = .ok (b, s', tr)) :
    s'.os_upgrades_available = s0.os_upgrades_available := by
  unfold upgrade_node at hrun
  rcases hg : node_version_gate J cfg env node version { s0 with rebooting := false }
    with e | ⟨ob, u, trG⟩ <;> rw [hg] at hrun
  · exact absurd hrun (by simp)
  · have hu : u.os_upgrades_available = s0.os_upgrades_available := by
      have hp := node_version_gate_preserves_os J cfg env node version
        { s0 with rebooting := false } hus ob u trG hg
      simpa using hp
    rcases ob with _ | ob <;> dsimp only at hrun
    · rcases hn : node_service_phase cfg env node u with ⟨bb, w, trS⟩
      rw [hn] at hrun
      have hw : w.os_upgrades_available = u.os_upgrades_available :=
        node_service_phase_preserves_os cfg env node u hus bb w trS hn
      cases bb with
      | false =>
        dsimp only at hrun
        simp only [Except.ok.injEq, Prod.mk.injEq] at hrun
        rw [← hrun.2.1, hw, hu]
      | true =>
        rcases ht : node_tail cfg env node with ⟨res, trT⟩
        rw [ht] at hrun
        dsimp only at hrun
        simp only [Except.ok.injEq, Prod.mk.injEq] at hrun
        rw [← hrun.2.1, hw, hu]
    · simp only [Except.ok.injEq, Prod.mk.injEq] at hrun
      rw [← hrun.2.1, hu]

/-- C2 counterexample: the claim says the per-node flags are created fresh
    at the start of each attempt, so the values observed at the start of
    attempt 2 are independent of attempt 1; but two runs differing only in
    what attempt 1's package upgrade printed (`Nothing to do` vs. an actual
    change) start attempt 2 with different `couchbase_upgrades_available`
    values — the flag is process-wide state carried across attempts. -/
theorem C2_counterexample :
    attemptStartStates Jver cfgPlain neNothing "2.0.0" ["n1", "n2"] initState =
      [⟨false, false, false⟩, ⟨false, false, false⟩]
    ∧ attemptStartStates Jver cfgPlain neChanged "2.0.0" ["n1", "n2"] initState =
      [⟨false, false, false⟩, ⟨false, true, false⟩] :=
  ⟨rfl, rfl⟩

/-- C2 (amended): only the `rebooting` flag is reset at the start of each
    attempt; the two upgrade-occurred flags persist across attempts.
    However, under the run invariant that the OS flag is false whenever OS
    upgrading is disabled (true from initialization, and preserved by every
    attempt), the carried values never change an attempt's observable
    outcome: result, raised error and command trace are the same for any
    two invariant-satisfying incoming states. -/
theorem C2_amended (J : String → Option JsonObj) (cfg : Config) (env : NodeEnv)
    (node version : String) (s1 s2 : UpgraderState)
    (h1 : cfg.upgrade_system = false → s1.os_upgrades_available = false)
    (h2 : cfg.upgrade_system = false → s2.os_upgrades_available = false) :
    observable (upgrade_node J cfg env node version s1) =
      observable (upgrade_node J cfg env node version s2)
    ∧ (∀ (b : Bool) (s' : UpgraderState) (tr : List Event),
        upgrade_node J cfg env node version s1 = .ok (b, s', tr) →
        cfg.upgrade_system = false → s'.os_upgrades_available = false) :=
  ⟨upgrade_node_obs J cfg env node version s1 s2 h1 h2,
   fun b s' tr hrun hus => by
     rw [upgrade_node_preserves_os J cfg env node version s1 hus b s' tr hrun]
     exact h1 hus⟩

/-- C2 witness: an attempt behaves the same from a dirty carried state and
    from the fresh initial state. -/
theorem C2_amended_witness :
    observable (upgrade_node Jver cfgPlain envChanged "n1" "2.0.0" ⟨true, true, false⟩) =
      observable (upgrade_node Jver cfgPlain envChanged "n1" "2.0.0" initState) :=
  (C2_amended Jver cfgPlain envChanged "n1" "2.0.0" ⟨true, true, false⟩ initState
    (fun _ => rfl) (fun _ => rfl)).1

/-- C1 counterexample: the claim states reboot-iff-gate for every node
    upgrade attempt; but with the force-reboot flag set and the stop-service
    step failing, the attempt aborts without any reboot, so the
    right-to-left direction fails. -/
theorem C1_counterexample :
    upgrade_node Jver cfgForce envStopFail "n1" "2.0.0" initState =
      .ok (false, initState, [Event.versionQuery "n1", Event.stopService "n1"])
    ∧ cfgForce.force_reboot = true
    ∧ Event.rebootNode "n1" ∉
        ([Event.versionQuery "n1", Event.stopService "n1"] : List Event) :=
  ⟨rfl, rfl, by decide⟩

/-- C1 (amended): in every attempt whose steps before the reboot decision
    all succeed, a reboot is issued iff the force-reboot flag is set, or the
    reboot-on-upgrade policy is set and one of the upgrades performed in
    that attempt changed something; an attempt aborted earlier issues no
    reboot even under force-reboot.  The main path (node needs the upgrade,
    or no target version configured) and the skip path (node already
    current) are stated separately; the incoming state satisfies the run
    invariant (OS flag false when OS upgrading is disabled). -/
theorem C1_amended (J : String → Option JsonObj) (cfg : Config) (env : NodeEnv)
    (node version : String) (s0 : UpgraderState)
    (hos : cfg.upgrade_system = false → s0.os_upgrades_available = false) :
    ((version = "" ∨ current_version_lower J env.serverInfo version = .ok true) →
      env.serviceStop.exitCode = 0 → env.upgradeCmd.exitCode = 0 →
      (cfg.upgrade_system = true → env.upgradeSystemCmd.exitCode = 0) →
      (Event.rebootNode node ∈ traceOf (upgrade_node J cfg env node version s0) ↔
        (cfg.force_reboot = true ∨ (cfg.reboot = true ∧
          (strContains env.upgradeCmd.stdout "Nothing to do" = false ∨
           (cfg.upgrade_system = true ∧
            strContains env.upgradeSystemCmd.stdout "No packages marked for update"
              = false))))))
    ∧ ((version ≠ "" ∧ current_version_lower J env.serverInfo version = .ok false) →
        (cfg.upgrade_system = true → env.upgradeSystemCmd.exitCode = 0) →
        (Event.rebootNode node ∈ traceOf (upgrade_node J cfg env node version s0) ↔
          (cfg.force_reboot = true ∨ (cfg.reboot = true ∧ cfg.upgrade_system = true ∧
            strContains env.upgradeSystemCmd.stdout "No packages marked for update"
              = false)))) := by
  constructor
  · intro hv hstop hcb hosx
    have hgate : ∃ tr0, (node_version_gate J cfg env node version
        { s0 with rebooting := false } =
          .ok (none, { s0 with rebooting := false }, tr0)) ∧
        Event.rebootNode node ∉ tr0 := by
      rcases hv with hv | hv
      · exact ⟨[], by unfold node_version_gate; rw [if_pos hv], by simp⟩
      · by_cases hvv : version = ""
        · exact ⟨[], by unfold node_version_gate; rw [if_pos hvv], by simp⟩
        · exact ⟨[Event.versionQuery node],
            by unfold node_version_gate; rw [if_neg hvv, hv], by simp⟩
    obtain ⟨tr0, hgate, htr0⟩ := hgate
    have hstop' : stop_service env.serviceStop = true := by simp [stop_service, hstop]
    have hcb' : upgrade_couchbase env.upgradeCmd { s0 with rebooting := false } =
        (true, ⟨false, !(strContains env.upgradeCmd.stdout "Nothing to do"),
          s0.os_upgrades_available⟩) := by
      unfold upgrade_couchbase
      rw [if_neg (by simp [hcb])]
    unfold upgrade_node
    rw [hgate]
    dsimp only
    unfold node_service_phase
    rw [if_neg (by simp)]
    rw [if_neg (by simp [hstop'])]
    rw [hcb']
    dsimp only
    by_cases hus : cfg.upgrade_system = true
    · rw [if_pos hus]
      have hosr : upgrade_system env.upgradeSystemCmd
          ⟨false, !(strContains env.upgradeCmd.stdout "Nothing to do"),
            s0.os_upgrades_available⟩ =
          (true, ⟨false, !(strContains env.upgradeCmd.stdout "Nothing to do"),
            !(strContains env.upgradeSystemCmd.stdout "No packages marked for update")⟩) := by
        unfold upgrade_system
        rw [if_neg (by simp [hosx hus])]
      rw [hosr]
      dsimp only
      by_cases hg : (cfg.force_reboot || (cfg.reboot &&
          (!(strContains env.upgradeCmd.stdout "Nothing to do") ||
           !(strContains env.upgradeSystemCmd.stdout
               "No packages marked for update")))) = true
      · rw [if_pos hg]
        rcases ht : node_tail cfg env node with ⟨res, trT⟩
        constructor
        · intro _
          simpa [hus] using hg
        · intro _
          simp [traceOf]
      · rw [if_neg hg]
        have hrhs : ¬(cfg.force_reboot = true ∨ (cfg.reboot = true ∧
            (strContains env.upgradeCmd.stdout "Nothing to do" = false ∨
             (cfg.upgrade_system = true ∧
              strContains env.upgradeSystemCmd.stdout "No packages marked for update"
                = false)))) := by
          intro hcon
          exact hg (by simpa [hus] using hcon)
        by_cases hstart : (!(start_service env.serviceStart)) = true
        · rw [if_pos hstart]
          constructor
          · intro hmem
            exfalso
            simp [traceOf, htr0] at hmem
          · intro hcon
            exact absurd hcon hrhs
        · rw [if_neg hstart]
          rcases ht : node_tail cfg env node with ⟨res, trT⟩
          have hT := node_tail_events cfg env node res trT ht
          constructor
          · intro hmem
            exfalso
            simp [traceOf, htr0, hT.1] at hmem
          · intro hcon
            exact absurd hcon hrhs
    · have hus' : cfg.upgrade_system = false := by simpa using hus
      have hos0 := hos hus'
      rw [if_neg (by simp [hus'])]
      rw [hos0]
      by_cases hg : (cfg.force_reboot || (cfg.reboot &&
          (!(strContains env.upgradeCmd.stdout "Nothing to do") || false))) = true
      · rw [if_pos hg]
        rcases ht : node_tail cfg env node with ⟨res, trT⟩
        constructor
        · intro _
          have hg' : cfg.force_reboot = true ∨ (cfg.reboot = true ∧
              strContains env.upgradeCmd.stdout "Nothing to do" = false) := by
            simpa using hg
          rcases hg' with h | ⟨h, h'⟩
          · exact Or.inl h
          · exact Or.inr ⟨h, Or.inl h'⟩
        · intro _
          simp [traceOf]
      · rw [if_neg hg]
        have hrhs : ¬(cfg.force_reboot = true ∨ (cfg.reboot = true ∧
            (strContains env.upgradeCmd.stdout "Nothing to do" = false ∨
             (cfg.upgrade_system = true ∧
              strContains env.upgradeSystemCmd.stdout "No packages marked for update"
                = false)))) := by
          intro hcon
          apply hg
          rcases hcon with h | ⟨h, h'⟩
          · simp [h]
          · rcases h' with h' | ⟨h'', _⟩
            · simp [h, h']
            · rw [hus'] at h''
              exact absurd h'' (by simp)
        by_cases hstart : (!(start_service env.serviceStart)) = true
        · rw [if_pos hstart]
          constructor
          · intro hmem
            exfalso
            simp [traceOf, htr0] at hmem
          · intro hcon
            exact absurd hcon hrhs
        · rw [if_neg hstart]
          rcases ht : node_tail cfg env node with ⟨res, trT⟩
          have hT := node_tail_events cfg env node res trT ht
          constructor
          · intro hmem
            exfalso
            simp [traceOf, htr0, hT.1] at hmem
          · intro hcon
            exact absurd hcon hrhs
  · intro hv hosx
    obtain ⟨hv, hcvl⟩ := hv
    unfold upgrade_node node_version_gate
    rw [if_neg hv, hcvl]
    dsimp only
    by_cases hus : cfg.upgrade_system = true
    · rw [if_pos hus]
      have hosr : upgrade_system env.upgradeSystemCmd { s0 with rebooting := false } =
          (true, ⟨false, s0.couchbase_upgrades_available,
            !(strContains env.upgradeSystemCmd.stdout "No packages marked for update")⟩) := by
        unfold upgrade_system
        rw [if_neg (by simp [hosx hus])]
      rw [hosr]
      dsimp only
      by_cases hg : (cfg.force_reboot || (cfg.reboot &&
          !(strContains env.upgradeSystemCmd.stdout
              "No packages marked for update"))) = true
      · rw [if_pos hg]
        dsimp only
        rw [node_service_phase_rebooting cfg env node _ rfl]
        dsimp only
        rcases ht : node_tail cfg env node with ⟨res, trT⟩
        constructor
        · intro _
          simpa [hus] using hg
        · intro _
          simp [traceOf]
      · rw [if_neg hg]
        constructor
        · intro hmem
          exfalso
          simp [traceOf] at hmem
        · intro hcon
          exact (hg (by simpa [hus] using hcon)).elim
    · have hus' : cfg.upgrade_system = false := by simpa using hus
      have hos0 := hos hus'
      rw [if_neg (by simp [hus'])]
      by_cases hforce : cfg.force_reboot = true
      · rw [if_pos (by simp [hforce])]
        dsimp only
        rw [node_service_phase_rebooting cfg env node _ rfl]
        dsimp only
        rcases ht : node_tail cfg env node with ⟨res, trT⟩
        constructor
        · intro _
          exact Or.inl hforce
        · intro _
          simp [traceOf]
      · rw [if_neg (by simp [hforce, hos0])]
        constructor
        · intro hmem
          exfalso
          simp [traceOf] at hmem
        · intro hcon
          rcases hcon with h | ⟨_, h'', _⟩
          · exact absurd h hforce
          · rw [hus'] at h''
            exact absurd h'' (by simp)

/-- C1 witness: a main-path attempt whose package upgrade changed something
    under the reboot-on-upgrade policy does reboot. -/
theorem C1_amended_witness :
    Event.rebootNode "n1" ∈
      traceOf (upgrade_node Jver cfgReboot envChanged "n1" "2.0.0" initState) :=
  ((C1_amended Jver cfgReboot envChanged "n1" "2.0.0" initState (fun _ => rfl)).1
    (Or.inr rfl) rfl rfl (fun h => by cases h)).mpr (by decide)
